import Mathlib

/-!
Shallow embedding of the stocking-chain technical-analysis core.

Conventions of the embedding:
* Go `float64` values are modelled as exact rationals (`ℚ`).  Division by
  zero in `ℚ` yields `0`; every place in the source where a division can
  actually hit a zero denominator is noted at the definition.
* `math.Sqrt` (used only by the Bollinger-band width) has no rational
  counterpart, so the whole engine is parameterised by a function
  `qsqrt : ℚ → ℚ` standing for the square-root routine.  No theorem below
  depends on any property of `qsqrt`.
* Go `int64` volumes are `ℤ`; `time.Time` dates are `ℤ` instants, with
  `After`/`Equal` becoming `>`/`=`.
* Slices walked by index become `List` operations: `data[a:b]`, `data[i]`
  and `for i := a; i < b; i++` become `drop`/`take`, `getD` and folds /
  maps over `List.range' a (b - a)`.
-/

namespace StockingChain

/-- `models.StockData`: a single OHLCV bar. -/
structure StockData where
  Symbol : String
  Date : ℤ
  Open : ℚ
  High : ℚ
  Low : ℚ
  Close : ℚ
  Volume : ℤ
  AdjClose : ℚ
deriving Repr, DecidableEq

/-- The Go zero value of `models.StockData`. -/
instance : Inhabited StockData := ⟨⟨"", 0, 0, 0, 0, 0, 0, 0⟩⟩

/-- `data[i]` on a Go slice; all uses in the source are in bounds. -/
def getD (data : List StockData) (i : ℕ) : StockData := data.getD i default

/-- `models.TechnicalIndicators`. -/
structure TechnicalIndicators where
  RSI : ℚ
  MACD : ℚ
  MACDSignal : ℚ
  MACDHistogram : ℚ
  SMA20 : ℚ
  SMA50 : ℚ
  SMA200 : ℚ
  EMA12 : ℚ
  EMA26 : ℚ
  BollingerUpper : ℚ
  BollingerMid : ℚ
  BollingerLower : ℚ
deriving Repr, DecidableEq

/-- `models.CandlestickPattern`. -/
structure CandlestickPattern where
  Name : String
  «Type» : String
  Confidence : ℚ
deriving Repr, DecidableEq

/-- `models.SupportResistance`. -/
structure SupportResistance where
  SupportLevels : List ℚ
  ResistanceLevels : List ℚ
deriving Repr, DecidableEq

/-- `models.TrendAnalysis`. -/
structure TrendAnalysis where
  Trend : String
  Strength : ℚ
  TrendLine : ℚ
deriving Repr, DecidableEq

/-- `models.PriceRange`. -/
structure PriceRange where
  Min : ℚ
  Max : ℚ
deriving Repr, DecidableEq

/-- `models.WyckoffEvent`. -/
structure WyckoffEvent where
  Name : String
  «Type» : String
  Date : ℤ
  Price : ℚ
  Volume : ℤ
  Confidence : ℚ
deriving Repr, DecidableEq

/-- `models.WyckoffAnalysis` (fields as constructed in `AnalyzeWyckoff`). -/
structure WyckoffAnalysis where
  Phase : String
  PhaseConfidence : ℚ
  Events : List WyckoffEvent
  TradingRange : PriceRange
  EffortResult : String
  Recommendation : String
  RecommendationScore : ℚ
  BuyZone : PriceRange
  AccumulationZone : PriceRange
  DistributionZone : PriceRange
  SellZone : PriceRange
deriving Repr, DecidableEq

/-- `models.TimeframePatterns` (declared in the frontend types as
`{daily, weekly, monthly}`; the Go struct itself is not in the sources,
only its use `patterns.Daily`). -/
structure TimeframePatterns where
  Daily : List CandlestickPattern
  Weekly : List CandlestickPattern
  Monthly : List CandlestickPattern
deriving Repr, DecidableEq

/-- `models.AnalysisReport` (Wyckoff-bearing variant used by the analyzer). -/
structure AnalysisReport where
  Symbol : String
  CompanyName : String
  Date : ℤ
  CurrentPrice : ℚ
  Indicators : TechnicalIndicators
  Patterns : TimeframePatterns
  SupportResistance : SupportResistance
  Trend : TrendAnalysis
  Wyckoff : WyckoffAnalysis
  BuyRange : PriceRange
  HalfBuyRange : PriceRange
  SellRange : PriceRange
  Recommendation : String
  RecommendationScore : ℚ
  PriceHistory : List StockData
deriving Repr, DecidableEq

instance : Inhabited AnalysisReport :=
  ⟨⟨"", "", 0, 0, ⟨0,0,0,0,0,0,0,0,0,0,0,0⟩, ⟨[],[],[]⟩, ⟨[],[]⟩, ⟨"",0,0⟩,
    ⟨"",0,[],⟨0,0⟩,"","",0,⟨0,0⟩,⟨0,0⟩,⟨0,0⟩,⟨0,0⟩⟩,
    ⟨0,0⟩, ⟨0,0⟩, ⟨0,0⟩, "", 0, []⟩⟩

/-! ## Indicator Calculator (`internal/analysis/indicators.go`) -/

/-- Sum of a list of rationals (the running `sum += ...` accumulators). -/
def sumQ (xs : List ℚ) : ℚ := xs.foldl (· + ·) 0

/-- `CalculateSMA`. -/
def CalculateSMA (data : List StockData) (period : ℕ) : ℚ :=
  if data.length < period then 0
  else sumQ (((data.drop (data.length - period)).map (·.Close))) / (period : ℚ)

/-- `CalculateEMA`. -/
def CalculateEMA (data : List StockData) (period : ℕ) : ℚ :=
  if data.length < period then 0
  else
    let multiplier : ℚ := 2 / ((period : ℚ) + 1)
    (data.drop period).foldl (fun ema d => (d.Close - ema) * multiplier + ema)
      (CalculateSMA (data.take period) period)

/-- The bar-to-bar deltas scanned by `CalculateRSI`: `data[i].Close -
data[i-1].Close` for `i` from `len-period` to `len-1`, i.e. the adjacent
differences over the last `period+1` bars. -/
def rsiDeltas (data : List StockData) (period : ℕ) : List ℚ :=
  let tail := data.drop (data.length - (period + 1))
  (tail.zip tail.tail).map (fun p => p.2.Close - p.1.Close)

/-- The `gains` accumulator of `CalculateRSI`. -/
def rsiGains (data : List StockData) (period : ℕ) : ℚ :=
  (rsiDeltas data period).foldl (fun g change => if change > 0 then g + change else g) 0

/-- The `losses` accumulator of `CalculateRSI`. -/
def rsiLosses (data : List StockData) (period : ℕ) : ℚ :=
  (rsiDeltas data period).foldl (fun l change => if change > 0 then l else l - change) 0

/-- The `avgGain` of `CalculateRSI`. -/
def rsiAvgGain (data : List StockData) (period : ℕ) : ℚ := rsiGains data period / (period : ℚ)

/-- The `avgLoss` of `CalculateRSI`. -/
def rsiAvgLoss (data : List StockData) (period : ℕ) : ℚ := rsiLosses data period / (period : ℚ)

/-- `CalculateRSI`. -/
def CalculateRSI (data : List StockData) (period : ℕ) : ℚ :=
  if data.length < period + 1 then 50
  else
    let avgGain := rsiAvgGain data period
    let avgLoss := rsiAvgLoss data period
    if avgLoss = 0 then 100
    else
      let rs := avgGain / avgLoss
      100 - (100 / (1 + rs))

/-- `CalculateMACD`; returns `(macd, signal, histogram)`. -/
def CalculateMACD (data : List StockData) : ℚ × ℚ × ℚ :=
  if data.length < 26 then (0, 0, 0)
  else
    let macd := CalculateEMA data 12 - CalculateEMA data 26
    let macdLine : List StockData :=
      (List.range' 26 (data.length - 26)).map (fun i =>
        { (default : StockData) with
          Close := CalculateEMA (data.take (i+1)) 12 - CalculateEMA (data.take (i+1)) 26 })
    let signal := if 9 ≤ macdLine.length then CalculateEMA macdLine 9 else 0
    (macd, signal, macd - signal)

/-- `CalculateBollingerBands`; returns `(upper, middle, lower)`.
`math.Sqrt` is the parameter `qsqrt`. -/
def CalculateBollingerBands (qsqrt : ℚ → ℚ) (data : List StockData) (period : ℕ) :
    ℚ × ℚ × ℚ :=
  if data.length < period then (0, 0, 0)
  else
    let middle := CalculateSMA data period
    let variance :=
      sumQ (((data.drop (data.length - period)).map (fun d => (d.Close - middle) ^ 2)))
    let stdDev := qsqrt (variance / (period : ℚ))
    (middle + 2 * stdDev, middle, middle - 2 * stdDev)

/-- `CalculateTechnicalIndicators`. -/
def CalculateTechnicalIndicators (qsqrt : ℚ → ℚ) (data : List StockData) :
    TechnicalIndicators :=
  let rsi := CalculateRSI data 14
  let m := CalculateMACD data
  let b := CalculateBollingerBands qsqrt data 20
  { RSI := rsi
    MACD := m.1
    MACDSignal := m.2.1
    MACDHistogram := m.2.2
    SMA20 := CalculateSMA data 20
    SMA50 := CalculateSMA data 50
    SMA200 := CalculateSMA data 200
    EMA12 := CalculateEMA data 12
    EMA26 := CalculateEMA data 26
    BollingerUpper := b.1
    BollingerMid := b.2.1
    BollingerLower := b.2.2 }

/-! ## Pattern Detector (`internal/analysis/patterns.go`) -/

/-- `isBullish`. -/
def isBullish (candle : StockData) : Bool := candle.Close > candle.Open

/-- `isBearish`. -/
def isBearish (candle : StockData) : Bool := candle.Close < candle.Open

/-- `bodySize`. -/
def bodySize (candle : StockData) : ℚ := |candle.Close - candle.Open|

/-- `upperShadow`. -/
def upperShadow (candle : StockData) : ℚ := candle.High - max candle.Open candle.Close

/-- `lowerShadow`. -/
def lowerShadow (candle : StockData) : ℚ := min candle.Open candle.Close - candle.Low

/-- `totalRange`. -/
def totalRange (candle : StockData) : ℚ := candle.High - candle.Low

/-- `bodyMidpoint`. -/
def bodyMidpoint (candle : StockData) : ℚ := (candle.Open + candle.Close) / 2

/-- `isInUptrend`. -/
def isInUptrend (data : List StockData) (lookback : ℕ) : Bool :=
  if data.length < lookback + 1 then false
  else (getD data (data.length - 1)).Close > (getD data (data.length - lookback - 1)).Close

/-- `isInDowntrend`. -/
def isInDowntrend (data : List StockData) (lookback : ℕ) : Bool :=
  if data.length < lookback + 1 then false
  else (getD data (data.length - 1)).Close < (getD data (data.length - lookback - 1)).Close

/-- `almostEqual`. -/
def almostEqual (a b tolerance : ℚ) : Bool := |a - b| ≤ tolerance

/-- `isDoji`. -/
def isDoji (candle : StockData) : Bool :=
  let r := totalRange candle
  if r = 0 then false else bodySize candle / r < 0.1

/-- `isDragonflyDoji`. -/
def isDragonflyDoji (candle : StockData) : Bool :=
  let r := totalRange candle
  if r = 0 then false
  else bodySize candle / r < 0.1 ∧ lowerShadow candle > r * 0.7 ∧ upperShadow candle < r * 0.1

/-- `isGravestoneDoji`. -/
def isGravestoneDoji (candle : StockData) : Bool :=
  let r := totalRange candle
  if r = 0 then false
  else bodySize candle / r < 0.1 ∧ upperShadow candle > r * 0.7 ∧ lowerShadow candle < r * 0.1

/-- `isSpinningTop`. -/
def isSpinningTop (candle : StockData) : Bool :=
  let r := totalRange candle
  if r = 0 then false
  else
    let body := bodySize candle
    let upper := upperShadow candle
    let lower := lowerShadow candle
    (body / r < 0.3 ∧ body / r > 0.05) ∧
    (upper > body * 0.5 ∧ lower > body * 0.5) ∧
    |upper - lower| < r * 0.3

/-- `isBullishMarubozu`. -/
def isBullishMarubozu (candle : StockData) : Bool :=
  if ¬ isBullish candle then false
  else
    let r := totalRange candle
    if r = 0 then false
    else bodySize candle / r > 0.95 ∧ upperShadow candle < r * 0.03 ∧
      lowerShadow candle < r * 0.03

/-- `isBearishMarubozu`. -/
def isBearishMarubozu (candle : StockData) : Bool :=
  if ¬ isBearish candle then false
  else
    let r := totalRange candle
    if r = 0 then false
    else bodySize candle / r > 0.95 ∧ upperShadow candle < r * 0.03 ∧
      lowerShadow candle < r * 0.03

/-- `isHammer`. -/
def isHammer (candle : StockData) : Bool :=
  let body := bodySize candle
  if body = 0 then false
  else lowerShadow candle > body * 2 ∧ upperShadow candle < body * 0.5

/-- `isInvertedHammer`. -/
def isInvertedHammer (candle : StockData) (data : List StockData) : Bool :=
  let body := bodySize candle
  if body = 0 then false
  else
    (upperShadow candle > body * 2 ∧ lowerShadow candle < body * 0.5) ∧
    isInDowntrend data 5

/-- `isHangingMan`. -/
def isHangingMan (candle : StockData) (data : List StockData) : Bool :=
  let body := bodySize candle
  if body = 0 then false
  else
    (lowerShadow candle > body * 2 ∧ upperShadow candle < body * 0.5) ∧
    isInUptrend data 5

/-- `isShootingStar`. -/
def isShootingStar (candle : StockData) : Bool :=
  let body := bodySize candle
  if body = 0 then false
  else upperShadow candle > body * 2 ∧ lowerShadow candle < body * 0.5

/-- `isBullishEngulfing`. -/
def isBullishEngulfing (prev current : StockData) : Bool :=
  if ¬ isBearish prev ∨ ¬ isBullish current then false
  else
    current.Open ≤ prev.Close ∧ current.Close ≥ prev.Open ∧
    bodySize current > bodySize prev

/-- `isBearishEngulfing`. -/
def isBearishEngulfing (prev current : StockData) : Bool :=
  if ¬ isBullish prev ∨ ¬ isBearish current then false
  else
    current.Open ≥ prev.Close ∧ current.Close ≤ prev.Open ∧
    bodySize current > bodySize prev

/-- `isPiercingLine`. -/
def isPiercingLine (prev current : StockData) : Bool :=
  if ¬ isBearish prev ∨ ¬ isBullish current then false
  else
    current.Open < prev.Close ∧ current.Close > bodyMidpoint prev ∧
    current.Close < prev.Open

/-- `isDarkCloudCover`. -/
def isDarkCloudCover (prev current : StockData) : Bool :=
  if ¬ isBullish prev ∨ ¬ isBearish current then false
  else
    current.Open > prev.Close ∧ current.Close < bodyMidpoint prev ∧
    current.Close > prev.Open

/-- `isBullishHarami`. -/
def isBullishHarami (prev current : StockData) : Bool :=
  if ¬ isBearish prev ∨ ¬ isBullish current then false
  else
    bodySize current < bodySize prev * 0.5 ∧ current.Open > prev.Close ∧
    current.Close < prev.Open

/-- `isBearishHarami`. -/
def isBearishHarami (prev current : StockData) : Bool :=
  if ¬ isBullish prev ∨ ¬ isBearish current then false
  else
    bodySize current < bodySize prev * 0.5 ∧ current.Open < prev.Close ∧
    current.Close > prev.Open

/-- `isTweezerTop`. -/
def isTweezerTop (prev current : StockData) : Bool :=
  if ¬ isBullish prev ∨ ¬ isBearish current then false
  else almostEqual prev.High current.High ((prev.High + current.High) / 2 * 0.002)

/-- `isTweezerBottom`. -/
def isTweezerBottom (prev current : StockData) : Bool :=
  if ¬ isBearish prev ∨ ¬ isBullish current then false
  else almostEqual prev.Low current.Low ((prev.Low + current.Low) / 2 * 0.002)

/-- `isMorningStar`. -/
def isMorningStar (first second third : StockData) : Bool :=
  if ¬ isBearish first ∨ ¬ isBullish third then false
  else
    bodySize second < bodySize first * 0.3 ∧ third.Close > bodyMidpoint first

/-- `isEveningStar`. -/
def isEveningStar (first second third : StockData) : Bool :=
  if ¬ isBullish first ∨ ¬ isBearish third then false
  else
    bodySize second < bodySize first * 0.3 ∧ third.Close < bodyMidpoint first

/-- `isThreeWhiteSoldiers`. -/
def isThreeWhiteSoldiers (first second third : StockData) : Bool :=
  if ¬ isBullish first ∨ ¬ isBullish second ∨ ¬ isBullish third then false
  else if bodySize first = 0 ∨ bodySize second = 0 ∨ bodySize third = 0 then false
  else
    (second.Open ≥ first.Open ∧ second.Open ≤ first.Close) ∧
    (third.Open ≥ second.Open ∧ third.Open ≤ second.Close) ∧
    (second.Close > first.Close ∧ third.Close > second.Close) ∧
    upperShadow first < bodySize first * 0.3 ∧
    upperShadow second < bodySize second * 0.3 ∧
    upperShadow third < bodySize third * 0.3

/-- `isThreeBlackCrows`. -/
def isThreeBlackCrows (first second third : StockData) : Bool :=
  if ¬ isBearish first ∨ ¬ isBearish second ∨ ¬ isBearish third then false
  else if bodySize first = 0 ∨ bodySize second = 0 ∨ bodySize third = 0 then false
  else
    (second.Open ≤ first.Open ∧ second.Open ≥ first.Close) ∧
    (third.Open ≤ second.Open ∧ third.Open ≥ second.Close) ∧
    (second.Close < first.Close ∧ third.Close < second.Close) ∧
    lowerShadow first < bodySize first * 0.3 ∧
    lowerShadow second < bodySize second * 0.3 ∧
    lowerShadow third < bodySize third * 0.3

/-- `isThreeInsideUp`. -/
def isThreeInsideUp (first second third : StockData) : Bool :=
  if ¬ isBearish first ∨ ¬ isBullish second ∨ ¬ isBullish third then false
  else
    (second.Open > first.Close ∧ second.Close < first.Open) ∧ third.Close > first.Open

/-- `isThreeInsideDown`. -/
def isThreeInsideDown (first second third : StockData) : Bool :=
  if ¬ isBullish first ∨ ¬ isBearish second ∨ ¬ isBearish third then false
  else
    (second.Open < first.Close ∧ second.Close > first.Open) ∧ third.Close < first.Open

/-- `isThreeOutsideUp`. -/
def isThreeOutsideUp (first second third : StockData) : Bool :=
  if ¬ isBearish first ∨ ¬ isBullish second ∨ ¬ isBullish third then false
  else
    (second.Open ≤ first.Close ∧ second.Close ≥ first.Open) ∧ third.Close > second.Close

/-- `isThreeOutsideDown`. -/
def isThreeOutsideDown (first second third : StockData) : Bool :=
  if ¬ isBullish first ∨ ¬ isBearish second ∨ ¬ isBearish third then false
  else
    (second.Open ≥ first.Close ∧ second.Close ≤ first.Open) ∧ third.Close < second.Close

/-- `DetectCandlestickPatterns`: the `patterns` slice built by the chain of
appends, in source order. -/
def DetectCandlestickPatterns (data : List StockData) : List CandlestickPattern :=
  if data.length < 3 then []
  else
    let current := getD data (data.length - 1)
    let prev := getD data (data.length - 2)
    (if isDragonflyDoji current then [⟨"Dragonfly Doji", "bullish", 0.75⟩]
     else if isGravestoneDoji current then [⟨"Gravestone Doji", "bearish", 0.75⟩]
     else if isDoji current then [⟨"Doji", "neutral", 0.7⟩]
     else []) ++
    (if isSpinningTop current then [⟨"Spinning Top", "neutral", 0.6⟩] else []) ++
    (if isBullishMarubozu current then [⟨"Bullish Marubozu", "bullish", 0.85⟩] else []) ++
    (if isBearishMarubozu current then [⟨"Bearish Marubozu", "bearish", 0.85⟩] else []) ++
    (if isHangingMan current data then [⟨"Hanging Man", "bearish", 0.7⟩]
     else if isHammer current then [⟨"Hammer", "bullish", 0.75⟩]
     else []) ++
    (if isInvertedHammer current data then [⟨"Inverted Hammer", "bullish", 0.7⟩]
     else if isShootingStar current then [⟨"Shooting Star", "bearish", 0.75⟩]
     else []) ++
    (if isBullishEngulfing prev current then [⟨"Bullish Engulfing", "bullish", 0.85⟩] else []) ++
    (if isBearishEngulfing prev current then [⟨"Bearish Engulfing", "bearish", 0.85⟩] else []) ++
    (if isPiercingLine prev current then [⟨"Piercing Line", "bullish", 0.75⟩] else []) ++
    (if isDarkCloudCover prev current then [⟨"Dark Cloud Cover", "bearish", 0.75⟩] else []) ++
    (if isBullishHarami prev current then [⟨"Bullish Harami", "bullish", 0.7⟩] else []) ++
    (if isBearishHarami prev current then [⟨"Bearish Harami", "bearish", 0.7⟩] else []) ++
    (if isTweezerTop prev current then [⟨"Tweezer Top", "bearish", 0.7⟩] else []) ++
    (if isTweezerBottom prev current then [⟨"Tweezer Bottom", "bullish", 0.7⟩] else []) ++
    (if 3 ≤ data.length then
      let prevPrev := getD data (data.length - 3)
      (if isMorningStar prevPrev prev current then [⟨"Morning Star", "bullish", 0.9⟩] else []) ++
      (if isEveningStar prevPrev prev current then [⟨"Evening Star", "bearish", 0.9⟩] else []) ++
      (if isThreeWhiteSoldiers prevPrev prev current then
        [⟨"Three White Soldiers", "bullish", 0.9⟩] else []) ++
      (if isThreeBlackCrows prevPrev prev current then
        [⟨"Three Black Crows", "bearish", 0.9⟩] else []) ++
      (if isThreeInsideUp prevPrev prev current then
        [⟨"Three Inside Up", "bullish", 0.85⟩] else []) ++
      (if isThreeInsideDown prevPrev prev current then
        [⟨"Three Inside Down", "bearish", 0.85⟩] else []) ++
      (if isThreeOutsideUp prevPrev prev current then
        [⟨"Three Outside Up", "bullish", 0.85⟩] else []) ++
      (if isThreeOutsideDown prevPrev prev current then
        [⟨"Three Outside Down", "bearish", 0.85⟩] else [])
    else [])

/-! ## Support/Resistance Detector (`pkg/analysis/support_resistance.go`) -/

/-- `pivotPoint`. -/
structure pivotPoint where
  price : ℚ
  isLow : Bool
deriving Repr, DecidableEq

/-- The `isLocalHigh` flag of `findPivotPoints` at index `i`: the inner loop
over `j ∈ [i-5, i+5]` clears it only on a strictly greater `High`. -/
def isLocalHighAt (data : List StockData) (i : ℕ) : Bool :=
  (List.range' (i - 5) 11).all (fun j =>
    j = i ∨ ¬ (getD data j).High > (getD data i).High)

/-- The `isLocalLow` flag of `findPivotPoints` at index `i`. -/
def isLocalLowAt (data : List StockData) (i : ℕ) : Bool :=
  (List.range' (i - 5) 11).all (fun j =>
    j = i ∨ ¬ (getD data j).Low < (getD data i).Low)

/-- The pivots appended by one iteration of the `findPivotPoints` loop. -/
def pivotEntriesAt (data : List StockData) (i : ℕ) : List pivotPoint :=
  (if isLocalHighAt data i then [⟨(getD data i).High, false⟩] else []) ++
  (if isLocalLowAt data i then [⟨(getD data i).Low, true⟩] else [])

/-- `findPivotPoints`: bars `i` from `lookback = 5` to `len-lookback-1`; a bar
is recorded as a local high when no bar within 5 on either side has a strictly
greater `High`, and as a local low when none has a strictly lower `Low`. -/
def findPivotPoints (data : List StockData) : List pivotPoint :=
  (List.range' 5 (data.length - 10)).flatMap (pivotEntriesAt data)

/-- `sort.Float64s`: ascending sort. -/
def sortAsc (levels : List ℚ) : List ℚ := levels.mergeSort

/-- The body of the `consolidateLevels` loop: `last` is the current final
element of `consolidated`, `acc` the elements before it.  A level within the
2% relative threshold of `last` is merged into it by averaging, otherwise it
starts a new entry.  (In `ℚ`, `|x - last| / last` is `0` when `last = 0`;
the Go code divides by zero there and never merges a nonzero level into a
zero one — no theorem below depends on levels at exactly `0`.) -/
def consolidateLoop : ℚ → List ℚ → List ℚ → List ℚ
  | last, acc, [] => acc ++ [last]
  | last, acc, x :: xs =>
    if |x - last| / last > 0.02 then consolidateLoop x (acc ++ [last]) xs
    else consolidateLoop ((last + x) / 2) acc xs

/-- `consolidateLevels`. -/
def consolidateLevels (levels : List ℚ) : List ℚ :=
  match sortAsc levels with
  | [] => []
  | l :: ls => consolidateLoop l [] ls

/-- The `supports` candidates: pivot lows strictly below the current price
(the loop's first branch). -/
def srSupportCandidates (data : List StockData) : List ℚ :=
  ((findPivotPoints data).filter (fun p =>
    p.isLow ∧ p.price < (getD data (data.length - 1)).Close)).map (·.price)

/-- The `resistances` candidates: pivot highs strictly above the current
price (the loop's `else if` branch). -/
def srResistanceCandidates (data : List StockData) : List ℚ :=
  ((findPivotPoints data).filter (fun p =>
    ¬ p.isLow ∧ p.price > (getD data (data.length - 1)).Close)).map (·.price)

/-- The final support list: consolidated, sorted descending (ascending sort
then descending re-sort, i.e. reversal), truncated to 3. -/
def srFinalSupports (data : List StockData) : List ℚ :=
  let s := (sortAsc (consolidateLevels (srSupportCandidates data))).reverse
  if 3 < s.length then s.take 3 else s

/-- The final resistance list: consolidated, sorted ascending, truncated. -/
def srFinalResistances (data : List StockData) : List ℚ :=
  let r := sortAsc (consolidateLevels (srResistanceCandidates data))
  if 3 < r.length then r.take 3 else r

/-- `DetectSupportResistance`. -/
def DetectSupportResistance (data : List StockData) : SupportResistance :=
  if data.length < 20 then ⟨[], []⟩
  else ⟨srFinalSupports data, srFinalResistances data⟩

/-! ## Trend Analyzer (`internal/analysis/trend.go`) -/

/-- `linearRegression`; returns `(slope, intercept)`.  The slope denominator
`n*sumX2 - sumX^2` is nonzero whenever `n ≥ 2`; the only caller has `n ≥ 20`. -/
def linearRegression (data : List StockData) : ℚ × ℚ :=
  let n : ℚ := data.length
  let sumX := sumQ (data.enum.map (fun p => (p.1 : ℚ)))
  let sumY := sumQ (data.enum.map (fun p => p.2.Close))
  let sumXY := sumQ (data.enum.map (fun p => (p.1 : ℚ) * p.2.Close))
  let sumX2 := sumQ (data.enum.map (fun p => (p.1 : ℚ) * (p.1 : ℚ)))
  let slope := (n * sumXY - sumX * sumY) / (n * sumX2 - sumX * sumX)
  (slope, (sumY - slope * sumX) / n)

/-- `average`. -/
def average (values : List ℚ) : ℚ :=
  if values.length = 0 then 0 else sumQ values / (values.length : ℚ)

/-- `calculateADX`: directional movement over consecutive bar pairs, averaged
over the trailing `period` entries.  (When `plusDI + minusDI = 0` the Go code
produces NaN, which fails the caller's `adx > 25` test; in `ℚ` the division
yields `0`, failing the same test.) -/
def calculateADX (data : List StockData) (period : ℕ) : ℚ :=
  if data.length < period + 1 then 0
  else
    let pairs := data.zip data.tail
    let plusDM := pairs.map (fun p =>
      let upMove := p.2.High - p.1.High
      let downMove := p.1.Low - p.2.Low
      if upMove > downMove ∧ upMove > 0 then upMove else 0)
    let minusDM := pairs.map (fun p =>
      let upMove := p.2.High - p.1.High
      let downMove := p.1.Low - p.2.Low
      if downMove > upMove ∧ downMove > 0 then downMove else 0)
    let tr := pairs.map (fun p =>
      max (p.2.High - p.2.Low) (max (|p.2.High - p.1.Close|) (|p.2.Low - p.1.Close|)))
    if tr.length < period then 0
    else
      let avgPlusDM := average (plusDM.drop (plusDM.length - period))
      let avgMinusDM := average (minusDM.drop (minusDM.length - period))
      let avgTR := average (tr.drop (tr.length - period))
      if avgTR = 0 then 0
      else
        let plusDI := avgPlusDM / avgTR * 100
        let minusDI := avgMinusDM / avgTR * 100
        |plusDI - minusDI| / (plusDI + minusDI) * 100

/-- `AnalyzeTrend`. -/
def AnalyzeTrend (data : List StockData) : TrendAnalysis :=
  if data.length < 20 then ⟨"sideways", 0, 0⟩
  else
    let reg := linearRegression data
    let slope := reg.1
    let sma20 := CalculateSMA data 20
    let sma50 := CalculateSMA data 50
    let currentPrice := (getD data (data.length - 1)).Close
    let ts1 : String × ℚ :=
      if slope > 0.001 then ("uptrend", min (slope * 1000) 1)
      else if slope < -0.001 then ("downtrend", min (|slope| * 1000) 1)
      else ("sideways", 0)
    let ts2 : String × ℚ :=
      if 50 ≤ data.length then
        if currentPrice > sma20 ∧ sma20 > sma50 then ("uptrend", max ts1.2 0.6)
        else if currentPrice < sma20 ∧ sma20 < sma50 then ("downtrend", max ts1.2 0.6)
        else ts1
      else ts1
    let trendLineValue := slope * ((data.length : ℚ) - 1) + reg.2
    let adx := calculateADX data 14
    let strength := if adx > 25 then max ts2.2 (adx / 100) else ts2.2
    ⟨ts2.1, strength, trendLineValue⟩

/-! ## Wyckoff Analyzer (`wyckoff.go`, provided as `src/unnamed/part_001`) -/

/-- `averageFloat64`. -/
def averageFloat64 (values : List ℚ) : ℚ :=
  if values.length = 0 then 0 else sumQ values / (values.length : ℚ)

/-- `maxHigh`. -/
def maxHigh (data : List StockData) : ℚ :=
  match data with
  | [] => 0
  | d :: ds => ds.foldl (fun m x => if x.High > m then x.High else m) d.High

/-- `minLow`. -/
def minLow (data : List StockData) : ℚ :=
  match data with
  | [] => 0
  | d :: ds => ds.foldl (fun m x => if x.Low < m then x.Low else m) d.Low

/-- `calculateAverageVolume`. -/
def calculateAverageVolume (data : List StockData) (lookback : ℕ) : ℚ :=
  let lb := if data.length < lookback then data.length else lookback
  (((data.drop (data.length - lb)).map (fun d => (d.Volume : ℚ))).foldl (· + ·) 0) / (lb : ℚ)

/-- `calculateAverageRange`: mean of `High - Low` over bars
`[max 0 (idx-lookback), idx)`. -/
def calculateAverageRange (data : List StockData) (idx lookback : ℕ) : ℚ :=
  let startIdx := idx - lookback
  let count := idx - startIdx
  if count = 0 then 1
  else sumQ (((data.drop startIdx).take count).map (fun d => d.High - d.Low)) / (count : ℚ)

/-- `calculateConfidence`. -/
def calculateConfidence (volumeRatio rangeRatio baseConfidence : ℚ) : ℚ :=
  let boost := (if volumeRatio > 2.5 then (0.1 : ℚ) else 0) +
    (if rangeRatio > 2.0 then (0.05 : ℚ) else 0)
  min (baseConfidence + boost) 0.95

/-- `detectTradingRange`. -/
def detectTradingRange (data : List StockData) : PriceRange :=
  if data.length < 20 then ⟨0, 0⟩
  else
    let lookback := min 60 data.length
    let recentData := data.drop (data.length - lookback)
    let highs := (List.range' 2 (recentData.length - 4)).filterMap (fun i =>
      if (getD recentData i).High > (getD recentData (i-1)).High ∧
         (getD recentData i).High > (getD recentData (i-2)).High ∧
         (getD recentData i).High > (getD recentData (i+1)).High ∧
         (getD recentData i).High > (getD recentData (i+2)).High
      then some (getD recentData i).High else none)
    let lows := (List.range' 2 (recentData.length - 4)).filterMap (fun i =>
      if (getD recentData i).Low < (getD recentData (i-1)).Low ∧
         (getD recentData i).Low < (getD recentData (i-2)).Low ∧
         (getD recentData i).Low < (getD recentData (i+1)).Low ∧
         (getD recentData i).Low < (getD recentData (i+2)).Low
      then some (getD recentData i).Low else none)
    let rangeHigh := if 0 < highs.length then averageFloat64 highs else maxHigh recentData
    let rangeLow := if 0 < lows.length then averageFloat64 lows else minLow recentData
    ⟨rangeLow, rangeHigh⟩

/-- `detectSellingClimax`. -/
def detectSellingClimax (data : List StockData) (idx : ℕ) (avgVolume : ℚ)
    (tr : PriceRange) : Option WyckoffEvent :=
  if idx < 3 ∨ data.length ≤ idx + 1 then none
  else
    let current := getD data idx
    let prev := getD data (idx - 1)
    let volumeRatio := (current.Volume : ℚ) / avgVolume
    let priceRange := current.High - current.Low
    let rangeRatio := priceRange / calculateAverageRange data idx 10
    let closePosition :=
      if priceRange = 0 then 0.5 else (current.Close - current.Low) / priceRange
    let nearSupport := current.Low ≤ tr.Min * 1.02
    let hasReversal :=
      if idx + 1 < data.length then (getD data (idx+1)).Close > current.Close else False
    let inDowntrend := prev.Close < (getD data (idx - 5)).Close
    if volumeRatio > 2.0 ∧ rangeRatio > 1.5 ∧ closePosition < 0.3 ∧
        nearSupport ∧ hasReversal ∧ inDowntrend then
      some ⟨"Selling Climax", "accumulation", current.Date, current.Close, current.Volume,
        calculateConfidence volumeRatio rangeRatio 0.8⟩
    else none

/-- `detectBuyingClimax`. -/
def detectBuyingClimax (data : List StockData) (idx : ℕ) (avgVolume : ℚ)
    (tr : PriceRange) : Option WyckoffEvent :=
  if idx < 3 ∨ data.length ≤ idx + 1 then none
  else
    let current := getD data idx
    let prev := getD data (idx - 1)
    let volumeRatio := (current.Volume : ℚ) / avgVolume
    let priceRange := current.High - current.Low
    let rangeRatio := priceRange / calculateAverageRange data idx 10
    let closePosition :=
      if priceRange = 0 then 0.5 else (current.Close - current.Low) / priceRange
    let nearResistance := current.High ≥ tr.Max * 0.98
    let hasReversal :=
      if idx + 1 < data.length then (getD data (idx+1)).Close < current.Close else False
    let inUptrend := prev.Close > (getD data (idx - 5)).Close
    if volumeRatio > 2.0 ∧ rangeRatio > 1.5 ∧ closePosition > 0.7 ∧
        nearResistance ∧ hasReversal ∧ inUptrend then
      some ⟨"Buying Climax", "distribution", current.Date, current.Close, current.Volume,
        calculateConfidence volumeRatio rangeRatio 0.8⟩
    else none

/-- `detectSpring` (the `prev` parameter is unused in the source as well). -/
def detectSpring (current _prev next : StockData) (tr : PriceRange)
    (avgVolume : ℚ) : Option WyckoffEvent :=
  let brokeSupport := current.Low < tr.Min
  let closedAbove := current.Close > tr.Min * 0.99
  let reversedUp := next.Close > current.Close ∧ next.Close > current.Open
  if tr.Min > 0 ∧ (tr.Min - current.Low) / tr.Min > 0.03 then none
  else if brokeSupport ∧ closedAbove ∧ reversedUp then
    let volumeRatio := (current.Volume : ℚ) / avgVolume
    some ⟨"Spring", "accumulation", current.Date, current.Close, current.Volume,
      if volumeRatio > 1.5 then 0.85 else 0.7⟩
  else none

/-- `detectUpthrust` (the `prev` parameter is unused in the source as well). -/
def detectUpthrust (current _prev next : StockData) (tr : PriceRange)
    (avgVolume : ℚ) : Option WyckoffEvent :=
  let brokeResistance := current.High > tr.Max
  let closedBelow := current.Close < tr.Max * 1.01
  let reversedDown := next.Close < current.Close ∧ next.Close < current.Open
  if tr.Max > 0 ∧ (current.High - tr.Max) / tr.Max > 0.03 then none
  else if brokeResistance ∧ closedBelow ∧ reversedDown then
    let volumeRatio := (current.Volume : ℚ) / avgVolume
    some ⟨"Upthrust", "distribution", current.Date, current.Close, current.Volume,
      if volumeRatio > 1.5 then 0.85 else 0.7⟩
  else none

/-- `detectSignOfStrength`. -/
def detectSignOfStrength (data : List StockData) (idx : ℕ) (avgVolume : ℚ)
    (tr : PriceRange) : Option WyckoffEvent :=
  if idx < 3 ∨ data.length ≤ idx then none
  else
    let current := getD data idx
    let priceRange := current.High - current.Low
    if priceRange = 0 then none
    else
      let closePosition := (current.Close - current.Low) / priceRange
      let volumeRatio := (current.Volume : ℚ) / avgVolume
      let rangeRatio := priceRange / calculateAverageRange data idx 10
      let breakingUp := current.Close > tr.Max * 0.98
      if isBullish current ∧ closePosition > 0.7 ∧ volumeRatio > 1.5 ∧
          rangeRatio > 1.3 ∧ breakingUp then
        some ⟨"Sign of Strength", "accumulation", current.Date, current.Close,
          current.Volume, calculateConfidence volumeRatio rangeRatio 0.75⟩
      else none

/-- `detectSignOfWeakness`. -/
def detectSignOfWeakness (data : List StockData) (idx : ℕ) (avgVolume : ℚ)
    (tr : PriceRange) : Option WyckoffEvent :=
  if idx < 3 ∨ data.length ≤ idx then none
  else
    let current := getD data idx
    let priceRange := current.High - current.Low
    if priceRange = 0 then none
    else
      let closePosition := (current.Close - current.Low) / priceRange
      let volumeRatio := (current.Volume : ℚ) / avgVolume
      let rangeRatio := priceRange / calculateAverageRange data idx 10
      let breakingDown := current.Close < tr.Min * 1.02
      if isBearish current ∧ closePosition < 0.3 ∧ volumeRatio > 1.5 ∧
          rangeRatio > 1.3 ∧ breakingDown then
        some ⟨"Sign of Weakness", "distribution", current.Date, current.Close,
          current.Volume, calculateConfidence volumeRatio rangeRatio 0.75⟩
      else none

/-- `detectWyckoffEvents`: scan of bars `5 .. len-3`, appending the six
detectors' hits in source order at each index. -/
def detectWyckoffEvents (data : List StockData) (tradingRange : PriceRange) :
    List WyckoffEvent :=
  if data.length < 10 then []
  else
    let avgVolume := calculateAverageVolume data 20
    (List.range' 5 (data.length - 7)).flatMap (fun i =>
      let current := getD data i
      let prev := getD data (i - 1)
      let next := getD data (i + 1)
      (detectSellingClimax data i avgVolume tradingRange).toList ++
      (detectBuyingClimax data i avgVolume tradingRange).toList ++
      (detectSpring current prev next tradingRange avgVolume).toList ++
      (detectUpthrust current prev next tradingRange avgVolume).toList ++
      (detectSignOfStrength data i avgVolume tradingRange).toList ++
      (detectSignOfWeakness data i avgVolume tradingRange).toList)

/-- The `accumulationEvents` counter of `determinePhase`. -/
def countAccumulation (events : List WyckoffEvent) : ℕ :=
  (events.filter (fun e => e.«Type» = "accumulation")).length

/-- The `distributionEvents` counter of `determinePhase`. -/
def countDistribution (events : List WyckoffEvent) : ℕ :=
  (events.filter (fun e => e.«Type» = "distribution")).length

/-- `determinePhase`; returns `(phase, confidence)`. -/
def determinePhase (data : List StockData) (events : List WyckoffEvent)
    (tr : PriceRange) : String × ℚ :=
  if data.length < 20 then ("unknown", 0)
  else
    let currentPrice := (getD data (data.length - 1)).Close
    let recentData := data.drop (data.length - 20)
    let accumulationEvents := countAccumulation events
    let distributionEvents := countDistribution events
    let rangeSize := if tr.Max - tr.Min = 0 then 1 else tr.Max - tr.Min
    let pricePosition := (currentPrice - tr.Min) / rangeSize
    let priceChange :=
      ((getD recentData (recentData.length - 1)).Close - (getD recentData 0).Close) /
        (getD recentData 0).Close
    let isUptrending := priceChange > 0.05
    let isDowntrending := priceChange < -0.05
    if isUptrending ∧ pricePosition > 0.8 then
      ("markup", 0.7 + (accumulationEvents : ℚ) * 0.05)
    else if isDowntrending ∧ pricePosition < 0.2 then
      ("markdown", 0.7 + (distributionEvents : ℚ) * 0.05)
    else if accumulationEvents > distributionEvents ∧ pricePosition < 0.5 then
      ("accumulation", min (0.6 + (accumulationEvents : ℚ) * 0.1) 0.95)
    else if distributionEvents > accumulationEvents ∧ pricePosition > 0.5 then
      ("distribution", min (0.6 + (distributionEvents : ℚ) * 0.1) 0.95)
    else if ¬ isUptrending ∧ ¬ isDowntrending then
      if pricePosition > 0.5 then ("distribution", 0.5) else ("accumulation", 0.5)
    else ("unknown", 0.3)

/-- `analyzeEffortVsResult`. -/
def analyzeEffortVsResult (data : List StockData) : String :=
  if data.length < 10 then "unknown"
  else
    let recentData := data.drop (data.length - 10)
    let firstHalfVolume := ((recentData.take 5).map (·.Volume)).foldl (· + ·) 0
    let secondHalfVolume := (((recentData.drop 5).take 5).map (·.Volume)).foldl (· + ·) 0
    let volumeIncreasing : Bool := secondHalfVolume > firstHalfVolume
    let priceChange :=
      (getD recentData (recentData.length - 1)).Close - (getD recentData 0).Close
    let avgRange := calculateAverageRange data (data.length - 1) 10
    let normalizedPriceChange := |priceChange| / avgRange
    if volumeIncreasing ∧ normalizedPriceChange < 2.0 then "diverging"
    else if volumeIncreasing ∧ normalizedPriceChange ≥ 2.0 then "confirming"
    else if ¬ volumeIncreasing ∧ normalizedPriceChange < 2.0 then "confirming"
    else if ¬ volumeIncreasing ∧ normalizedPriceChange ≥ 2.0 then "diverging"
    else "unknown"

/-- The running `score` of `generateWyckoffRecommendation` (the four `score`
accumulation steps, as a sum of the four terms). -/
def wyckoffScoreRaw (data : List StockData) (phase : String) (phaseConfidence : ℚ)
    (events : List WyckoffEvent) (tradingRange : PriceRange)
    (effortResult : String) : ℚ :=
  let currentPrice := (getD data (data.length - 1)).Close
  let phaseTerm : ℚ :=
    if phase = "accumulation" then 3.0 * phaseConfidence
    else if phase = "markup" then 1.5 * phaseConfidence
    else if phase = "distribution" then -3.0 * phaseConfidence
    else if phase = "markdown" then -1.5 * phaseConfidence
    else 0
  let rangeSize := tradingRange.Max - tradingRange.Min
  let positionTerm : ℚ :=
    if rangeSize > 0 then
      let pricePosition := (currentPrice - tradingRange.Min) / rangeSize
      if pricePosition < 0.3 then 2.0
      else if pricePosition > 0.7 then -2.0
      else 0
    else 0
  let eventsTerm : ℚ :=
    if 10 ≤ data.length then
      let recentDate := (getD data (data.length - 10)).Date
      events.foldl (fun s e =>
        if e.Date > recentDate ∨ e.Date = recentDate then
          if e.Name = "Spring" then s + 2.5 * e.Confidence
          else if e.Name = "Sign of Strength" then s + 2.0 * e.Confidence
          else if e.Name = "Selling Climax" then s + 1.5 * e.Confidence
          else if e.Name = "Upthrust" then s - 2.5 * e.Confidence
          else if e.Name = "Sign of Weakness" then s - 2.0 * e.Confidence
          else if e.Name = "Buying Climax" then s - 1.5 * e.Confidence
          else s
        else s) 0
    else 0
  let effortTerm : ℚ :=
    if effortResult = "diverging" then
      if 10 ≤ data.length then
        if currentPrice > (getD data (data.length - 10)).Close then -1.5 else 1.5
      else 0
    else if effortResult = "confirming" then 0.5
    else 0
  phaseTerm + positionTerm + eventsTerm + effortTerm

/-- `generateWyckoffRecommendation`; returns `(recommendation, score)`. -/
def generateWyckoffRecommendation (data : List StockData) (phase : String)
    (phaseConfidence : ℚ) (events : List WyckoffEvent) (tradingRange : PriceRange)
    (effortResult : String) : String × ℚ :=
  if data.length = 0 ∨ phase = "insufficient_data" ∨ phase = "unknown" then ("hold", 0)
  else
    let score := wyckoffScoreRaw data phase phaseConfidence events tradingRange effortResult
    let normalizedScore := max (-1) (min 1 (score / 9.0))
    (if normalizedScore > 0.4 then "buy"
     else if normalizedScore < -0.4 then "sell"
     else "hold", normalizedScore)

/-- `calculateWyckoffZones`; returns
`(buyZone, accumulationZone, distributionZone, sellZone)`. -/
def calculateWyckoffZones (data : List StockData) (tradingRange : PriceRange)
    (events : List WyckoffEvent) (_phase : String) :
    PriceRange × PriceRange × PriceRange × PriceRange :=
  let rangeSize := tradingRange.Max - tradingRange.Min
  let buyZone : PriceRange :=
    ⟨tradingRange.Min - rangeSize * 0.03, tradingRange.Min + rangeSize * 0.15⟩
  let accumZone : PriceRange :=
    ⟨tradingRange.Min + rangeSize * 0.15, tradingRange.Min + rangeSize * 0.35⟩
  let distZone : PriceRange :=
    ⟨tradingRange.Max - rangeSize * 0.35, tradingRange.Max - rangeSize * 0.15⟩
  let sellZone : PriceRange :=
    ⟨tradingRange.Max - rangeSize * 0.15, tradingRange.Max + rangeSize * 0.03⟩
  let zones :=
    if 10 ≤ data.length then
      let recentDate := (getD data (data.length - 10)).Date
      events.foldl (fun bs e =>
        if e.Date > recentDate ∨ e.Date = recentDate then
          if e.Name = "Spring" then
            if e.Price * 0.98 < bs.1.Min then (⟨e.Price * 0.98, bs.1.Max⟩, bs.2) else bs
          else if e.Name = "Upthrust" then
            if e.Price * 1.02 > bs.2.Max then (bs.1, ⟨bs.2.Min, e.Price * 1.02⟩) else bs
          else if e.Name = "Selling Climax" then
            (⟨bs.1.Min, bs.1.Max + rangeSize * 0.10⟩, bs.2)
          else if e.Name = "Buying Climax" then
            (bs.1, ⟨bs.2.Min - rangeSize * 0.10, bs.2.Max⟩)
          else bs
        else bs) (buyZone, sellZone)
    else (buyZone, sellZone)
  (zones.1, accumZone, distZone, zones.2)

/-- `AnalyzeWyckoff`. -/
def AnalyzeWyckoff (data : List StockData) : WyckoffAnalysis :=
  if data.length < 30 then
    ⟨"insufficient_data", 0, [], ⟨0, 0⟩, "unknown", "hold", 0,
      ⟨0, 0⟩, ⟨0, 0⟩, ⟨0, 0⟩, ⟨0, 0⟩⟩
  else
    let tradingRange := detectTradingRange data
    let events := detectWyckoffEvents data tradingRange
    let pc := determinePhase data events tradingRange
    let effortResult := analyzeEffortVsResult data
    let rec_ := generateWyckoffRecommendation data pc.1 pc.2 events tradingRange effortResult
    let zones := calculateWyckoffZones data tradingRange events pc.1
    ⟨pc.1, pc.2, events, tradingRange, effortResult, rec_.1, rec_.2,
      zones.1, zones.2.1, zones.2.2.1, zones.2.2.2⟩

/-! ## Recommendation Synthesizer (`internal/models/stock.go` analyzer part) -/

/-- Modelled from the spec: `DetectAllTimeframePatterns` is called by the
analyzer but its definition is not among the sources (only the callers and
the frontend declaration of `TimeframePatterns` are).  Spec §4.2 specifies a
single Pattern Detector output — "the list of all patterns that matched on
the latest available bar(s)" — and the report shape carries that list; the
daily list is the one consumed by `generateRecommendation`.  Each timeframe
is therefore modelled as the §4.2 detector applied to the series. -/
def DetectAllTimeframePatterns (data : List StockData) : TimeframePatterns :=
  ⟨DetectCandlestickPatterns data, DetectCandlestickPatterns data,
    DetectCandlestickPatterns data⟩

/-- The running `score` of `generateRecommendation`: the sum of the RSI,
MACD, moving-average, Bollinger, daily-pattern, trend, support/resistance
proximity, Wyckoff-phase, Wyckoff-event and effort-result terms. -/
def recommendationScoreRaw (currentPrice : ℚ) (indicators : TechnicalIndicators)
    (patterns : TimeframePatterns) (sr : SupportResistance) (trend : TrendAnalysis)
    (wyckoff : WyckoffAnalysis) : ℚ :=
  let rsiTerm : ℚ :=
    if indicators.RSI < 30 then 2.0
    else if indicators.RSI < 40 then 1.0
    else if indicators.RSI > 70 then -2.0
    else if indicators.RSI > 60 then -1.0
    else 0
  let macdTerm : ℚ := if indicators.MACD > indicators.MACDSignal then 1.5 else -1.5
  let smaTerm : ℚ :=
    if currentPrice > indicators.SMA20 ∧ indicators.SMA20 > indicators.SMA50 then 1.5
    else if currentPrice < indicators.SMA20 ∧ indicators.SMA20 < indicators.SMA50 then -1.5
    else 0
  let bollingerTerm : ℚ :=
    if currentPrice < indicators.BollingerLower then 1.0
    else if currentPrice > indicators.BollingerUpper then -1.0
    else 0
  let patternTerm : ℚ :=
    patterns.Daily.foldl (fun s p =>
      if p.«Type» = "bullish" then s + p.Confidence
      else if p.«Type» = "bearish" then s - p.Confidence
      else s) 0
  let trendTerm : ℚ :=
    if trend.Trend = "uptrend" then trend.Strength * 2
    else if trend.Trend = "downtrend" then -(trend.Strength * 2)
    else 0
  let supportTerm : ℚ :=
    if 0 < sr.SupportLevels.length then
      if (currentPrice - sr.SupportLevels.getD 0 0) / currentPrice < 0.02 then 1.0 else 0
    else 0
  let resistanceTerm : ℚ :=
    if 0 < sr.ResistanceLevels.length then
      if (sr.ResistanceLevels.getD 0 0 - currentPrice) / currentPrice < 0.02 then -1.0 else 0
    else 0
  let wyckoffPhaseTerm : ℚ :=
    if wyckoff.Phase = "accumulation" then 1.0 * wyckoff.PhaseConfidence
    else if wyckoff.Phase = "markup" then 0.75 * wyckoff.PhaseConfidence
    else if wyckoff.Phase = "distribution" then -(1.0 * wyckoff.PhaseConfidence)
    else if wyckoff.Phase = "markdown" then -(0.75 * wyckoff.PhaseConfidence)
    else 0
  let wyckoffEventTerm : ℚ :=
    wyckoff.Events.foldl (fun s e =>
      if e.Name = "Spring" ∨ e.Name = "Sign of Strength" ∨ e.Name = "Selling Climax" then
        s + 0.75 * e.Confidence
      else if e.Name = "Upthrust" ∨ e.Name = "Sign of Weakness" ∨ e.Name = "Buying Climax" then
        s - 0.75 * e.Confidence
      else s) 0
  let effortTerm : ℚ :=
    if wyckoff.EffortResult = "diverging" then
      if trend.Trend = "uptrend" then -0.25
      else if trend.Trend = "downtrend" then 0.25
      else 0
    else 0
  rsiTerm + macdTerm + smaTerm + bollingerTerm + patternTerm + trendTerm +
    supportTerm + resistanceTerm + wyckoffPhaseTerm + wyckoffEventTerm + effortTerm

/-- `generateRecommendation`; returns `(recommendation, normalizedScore)`. -/
def generateRecommendation (currentPrice : ℚ) (indicators : TechnicalIndicators)
    (patterns : TimeframePatterns) (sr : SupportResistance) (trend : TrendAnalysis)
    (wyckoff : WyckoffAnalysis) : String × ℚ :=
  let score := recommendationScoreRaw currentPrice indicators patterns sr trend wyckoff
  let normalizedScore := max (-1) (min 1 (score / 10))
  (if normalizedScore > 0.3 then "buy"
   else if normalizedScore < -0.3 then "sell"
   else "hold", normalizedScore)

/-- The `buyMin` local of `calculatePriceRanges`: nearest support, else
`min(BollingerLower, 95% of price)`. -/
def buyMinOf (currentPrice : ℚ) (indicators : TechnicalIndicators)
    (sr : SupportResistance) : ℚ :=
  if 0 < sr.SupportLevels.length then sr.SupportLevels.getD 0 0
  else min indicators.BollingerLower (currentPrice * 0.95)

/-- The `buyMax` local of `calculatePriceRanges`: with more than one support
it is again `SupportLevels[0]`, else 98% of price. -/
def buyMaxOf (currentPrice : ℚ) (sr : SupportResistance) : ℚ :=
  if 1 < sr.SupportLevels.length then sr.SupportLevels.getD 0 0
  else currentPrice * 0.98

/-- The `(sellMin, sellMax)` locals before the trend adjustment. -/
def sellBaseOf (currentPrice : ℚ) (sr : SupportResistance) : ℚ × ℚ :=
  if 0 < sr.ResistanceLevels.length then
    (sr.ResistanceLevels.getD 0 0,
     if 1 < sr.ResistanceLevels.length then sr.ResistanceLevels.getD 1 0
     else sr.ResistanceLevels.getD 0 0 * 1.05)
  else (currentPrice * 1.05, currentPrice * 1.15)

/-- The strong-trend widening/narrowing of `(sellMin, sellMax)`. -/
def sellAdjust (trend : TrendAnalysis) (mm : ℚ × ℚ) : ℚ × ℚ :=
  if trend.Trend = "uptrend" ∧ trend.Strength > 0.6 then (mm.1, mm.2 * 1.1)
  else if trend.Trend = "downtrend" ∧ trend.Strength > 0.6 then
    (mm.1 * 0.95, mm.2 * 0.95)
  else mm

/-- `calculatePriceRanges`; returns `(buyRange, halfBuyRange, sellRange)`. -/
def calculatePriceRanges (currentPrice : ℚ) (indicators : TechnicalIndicators)
    (sr : SupportResistance) (trend : TrendAnalysis) :
    PriceRange × PriceRange × PriceRange :=
  (⟨buyMinOf currentPrice indicators sr, buyMaxOf currentPrice sr⟩,
   ⟨buyMaxOf currentPrice sr, currentPrice⟩,
   ⟨(sellAdjust trend (sellBaseOf currentPrice sr)).1,
    (sellAdjust trend (sellBaseOf currentPrice sr)).2⟩)

/-- `(*Analyzer) Analyze`: `nil, nil` on an empty series is modelled as
`none`; `time.Now()` is the explicit `now` argument stamped into `Date`. -/
def Analyze (qsqrt : ℚ → ℚ) (symbol : String) (now : ℤ)
    (data : List StockData) : Option AnalysisReport :=
  if data.length = 0 then none
  else
    let currentData := getD data (data.length - 1)
    let currentPrice := currentData.Close
    let indicators := CalculateTechnicalIndicators qsqrt data
    let patterns := DetectAllTimeframePatterns data
    let supportResistance := DetectSupportResistance data
    let trend := AnalyzeTrend data
    let wyckoff := AnalyzeWyckoff data
    let rec_ := generateRecommendation currentPrice indicators patterns
      supportResistance trend wyckoff
    let ranges := calculatePriceRanges currentPrice indicators supportResistance trend
    some
      { Symbol := symbol
        CompanyName := ""
        Date := now
        CurrentPrice := currentPrice
        Indicators := indicators
        Patterns := patterns
        SupportResistance := supportResistance
        Trend := trend
        Wyckoff := wyckoff
        BuyRange := ranges.1
        HalfBuyRange := ranges.2.1
        SellRange := ranges.2.2
        Recommendation := rec_.1
        RecommendationScore := rec_.2
        PriceHistory := data }

/-- Every field of a report except the stamped `Date`. -/
def reportCore (r : AnalysisReport) :=
  (r.Symbol, r.CompanyName, r.CurrentPrice, r.Indicators, r.Patterns,
   r.SupportResistance, r.Trend, r.Wyckoff, r.BuyRange, r.HalfBuyRange,
   r.SellRange, r.Recommendation, r.RecommendationScore, r.PriceHistory)

/-! ## Concrete series used to instantiate and refute the claims -/

/-- A trivial stand-in for `math.Sqrt` (no theorem depends on its values). -/
def qsqrt0 : ℚ → ℚ := fun _ => 0

/-- 21 flat bars at 100 with a single dip low of 99 at bar 10: the detector
returns exactly one support level, 99, which lies above 98% of the current
price 100. -/
def oneSupportSeries : List StockData :=
  (List.range 21).map (fun i =>
    { Symbol := "C", Date := (i : ℤ), Open := 100, High := 100,
      Low := if i = 10 then 99 else 100, Close := 100, Volume := 100, AdjClose := 100 })

/-- 60 bars: a flat 100-range holding eight high-volume wide-range bullish
bars (indices 6,9,...,27, each a Sign of Strength), followed by 20 rising
bars; the phase comes out "markup" with eight accumulation events. -/
def eightSosSeries : List StockData :=
  (List.range 60).map (fun i =>
    if i ≤ 39 then
      if i ≥ 6 ∧ i ≤ 27 ∧ (i - 6) % 3 = 0 then
        { Symbol := "C", Date := (i : ℤ), Open := 96, High := 101, Low := 91,
          Close := 100, Volume := 1000, AdjClose := 100 }
      else
        { Symbol := "C", Date := (i : ℤ), Open := 100, High := 100.5, Low := 99.5,
          Close := 100, Volume := 100, AdjClose := 100 }
    else
      { Symbol := "C", Date := (i : ℤ), Open := 100 + ((i : ℚ) - 39) / 2,
        High := 100.5 + ((i : ℚ) - 39) / 2, Low := 99.5 + ((i : ℚ) - 39) / 2,
        Close := 100 + ((i : ℚ) - 39) / 2, Volume := 100, AdjClose := 100 })

/-- 30 steadily rising bars on flat volume: phase "markup" with no events. -/
def risingSeries : List StockData :=
  (List.range 30).map (fun i =>
    { Symbol := "W", Date := (i : ℤ), Open := 100 + (i : ℚ) / 2,
      High := 100.5 + (i : ℚ) / 2, Low := 99.5 + (i : ℚ) / 2,
      Close := 100 + (i : ℚ) / 2, Volume := 100, AdjClose := 0 })

/-- 30 bars: a 200-high spike at bar 3 pins the trading range far above the
price, and the last 20 bars rise more than 5%: the phase comes out
"unknown". -/
def spikeSeries : List StockData :=
  (List.range 30).map (fun i =>
    if i = 3 then
      { Symbol := "S", Date := (i : ℤ), Open := 100, High := 200, Low := 100,
        Close := 100, Volume := 100, AdjClose := 0 }
    else
      let c : ℚ := if i < 10 then 100 else 100 + ((i : ℚ) - 9) / 2
      { Symbol := "S", Date := (i : ℤ), Open := c, High := c + 0.5, Low := c - 0.5,
        Close := c, Volume := 100, AdjClose := 0 })

/-- 11 identical bars (High 10, Low 9): every High ties its neighbours. -/
def flatElevenSeries : List StockData :=
  (List.range 11).map (fun i =>
    { Symbol := "F", Date := (i : ℤ), Open := 9.5, High := 10, Low := 9,
      Close := 9.5, Volume := 1, AdjClose := 0 })

/-- 37 bars at 100 with four isolated peak highs (110, 111, 120, 130) and
four isolated dip lows (90, 91.5, 95, 80): exercises consolidation (the
110/111 and 90/91.5 pairs merge) and both result lists at full length 3. -/
def peaksAndDipsSeries : List StockData :=
  (List.range 37).map (fun i =>
    { Symbol := "D", Date := (i : ℤ), Open := 100,
      High := if i = 8 then 110 else if i = 14 then 111 else if i = 20 then 120
        else if i = 26 then 130 else 100,
      Low := if i = 6 then 90 else if i = 12 then 91.5 else if i = 18 then 95
        else if i = 24 then 80 else 100,
      Close := 100, Volume := 1, AdjClose := 0 })

/-- 16 bars whose closes alternate 100/101: both gains and losses. -/
def alternatingSeries : List StockData :=
  (List.range 16).map (fun i =>
    let c : ℚ := if i % 2 = 1 then 101 else 100
    { Symbol := "A", Date := (i : ℤ), Open := c, High := c + 1, Low := c - 1,
      Close := c, Volume := 10, AdjClose := 0 })

/-- 15 identical bars: zero gains and zero losses. -/
def flatFifteenSeries : List StockData :=
  (List.range 15).map (fun i =>
    { Symbol := "A", Date := (i : ℤ), Open := 100, High := 100, Low := 100,
      Close := 100, Volume := 10, AdjClose := 0 })

/-- Two arbitrary bars (an under-length series for every component). -/
def twoBarSeries : List StockData :=
  [{ Symbol := "T", Date := 0, Open := 10, High := 11, Low := 9, Close := 10,
     Volume := 5, AdjClose := 0 },
   { Symbol := "T", Date := 1, Open := 10, High := 12, Low := 8, Close := 11,
     Volume := 6, AdjClose := 0 }]

/-- A single bar closing at 100. -/
def oneBarSeries : List StockData :=
  [{ Symbol := "O", Date := 0, Open := 99, High := 101, Low := 98, Close := 100,
     Volume := 7, AdjClose := 0 }]

/-! ## Helper lemmas -/

set_option maxRecDepth 400000

/-- The `gains` accumulator only ever adds positive deltas. -/
theorem foldl_gains_nonneg (l : List ℚ) :
    ∀ a : ℚ, 0 ≤ a → 0 ≤ l.foldl (fun g change => if change > 0 then g + change else g) a := by
  induction l with
  | nil => intro a h; exact h
  | cons c cs ih =>
    intro a h
    simp only [List.foldl_cons]
    apply ih
    split_ifs with hc
    · linarith
    · exact h

/-- The `losses` accumulator only ever subtracts nonpositive deltas. -/
theorem foldl_losses_nonneg (l : List ℚ) :
    ∀ a : ℚ, 0 ≤ a → 0 ≤ l.foldl (fun s change => if change > 0 then s else s - change) a := by
  induction l with
  | nil => intro a h; exact h
  | cons c cs ih =>
    intro a h
    simp only [List.foldl_cons]
    apply ih
    split_ifs with hc
    · exact h
    · push_neg at hc; linarith

/-- Bounds and label thresholds for the shared clamp-then-label tail of both
recommendation generators. -/
theorem clamp_bounds_and_labels (x t : ℚ) (ht : 0 < t) :
    (-1 : ℚ) ≤ max (-1 : ℚ) (min 1 x) ∧ max (-1 : ℚ) (min 1 x) ≤ 1 ∧
    ((if max (-1 : ℚ) (min 1 x) > t then "buy"
      else if max (-1 : ℚ) (min 1 x) < -t then "sell" else "hold") = "buy" ↔
        max (-1 : ℚ) (min 1 x) > t) ∧
    ((if max (-1 : ℚ) (min 1 x) > t then "buy"
      else if max (-1 : ℚ) (min 1 x) < -t then "sell" else "hold") = "sell" ↔
        max (-1 : ℚ) (min 1 x) < -t) ∧
    ((if max (-1 : ℚ) (min 1 x) > t then "buy"
      else if max (-1 : ℚ) (min 1 x) < -t then "sell" else "hold") = "hold" ↔
        ¬ (max (-1 : ℚ) (min 1 x) > t) ∧ ¬ (max (-1 : ℚ) (min 1 x) < -t)) := by
  refine ⟨le_max_left _ _, max_le (by norm_num) (min_le_left _ _), ?_, ?_, ?_⟩
  · by_cases h1 : max (-1 : ℚ) (min 1 x) > t
    · rw [if_pos h1]; exact iff_of_true rfl h1
    · rw [if_neg h1]
      by_cases h2 : max (-1 : ℚ) (min 1 x) < -t
      · rw [if_pos h2]; exact iff_of_false (by decide) h1
      · rw [if_neg h2]; exact iff_of_false (by decide) h1
  · by_cases h1 : max (-1 : ℚ) (min 1 x) > t
    · rw [if_pos h1]; exact iff_of_false (by decide) (fun h2 => absurd h1 (by linarith))
    · rw [if_neg h1]
      by_cases h2 : max (-1 : ℚ) (min 1 x) < -t
      · rw [if_pos h2]; exact iff_of_true rfl h2
      · rw [if_neg h2]; exact iff_of_false (by decide) h2
  · by_cases h1 : max (-1 : ℚ) (min 1 x) > t
    · rw [if_pos h1]; exact iff_of_false (by decide) (fun h => h.1 h1)
    · rw [if_neg h1]
      by_cases h2 : max (-1 : ℚ) (min 1 x) < -t
      · rw [if_pos h2]; exact iff_of_false (by decide) (fun h => h.2 h2)
      · rw [if_neg h2]; exact iff_of_true rfl ⟨h1, h2⟩

/-- Any property preserved by taking the midpoint of two satisfying values
is preserved by the `consolidateLevels` loop. -/
theorem consolidateLoop_forall {P : ℚ → Prop}
    (hmid : ∀ a b, P a → P b → P ((a + b) / 2)) :
    ∀ (rest : List ℚ) (last : ℚ) (acc : List ℚ), P last → (∀ x ∈ acc, P x) →
      (∀ x ∈ rest, P x) → ∀ y ∈ consolidateLoop last acc rest, P y := by
  intro rest
  induction rest with
  | nil =>
    intro last acc hl ha _ y hy
    rw [consolidateLoop] at hy
    rcases List.mem_append.mp hy with h | h
    · exact ha y h
    · rw [List.mem_singleton] at h; subst h; exact hl
  | cons x xs ih =>
    intro last acc hl ha hr y hy
    rw [consolidateLoop] at hy
    split_ifs at hy with hc
    · refine ih x (acc ++ [last]) (hr x (List.mem_cons_self _ _)) ?_
        (fun z hz => hr z (List.mem_cons_of_mem _ hz)) y hy
      intro z hz
      rcases List.mem_append.mp hz with h | h
      · exact ha z h
      · rw [List.mem_singleton] at h; subst h; exact hl
    · exact ih _ acc (hmid last x hl (hr x (List.mem_cons_self _ _))) ha
        (fun z hz => hr z (List.mem_cons_of_mem _ hz)) y hy

/-- `consolidateLevels` preserves midpoint-stable properties of its input. -/
theorem consolidateLevels_forall {P : ℚ → Prop}
    (hmid : ∀ a b, P a → P b → P ((a + b) / 2)) (levels : List ℚ)
    (h : ∀ x ∈ levels, P x) : ∀ y ∈ consolidateLevels levels, P y := by
  have hs : ∀ x ∈ sortAsc levels, P x := by
    intro x hx
    rw [sortAsc, List.mem_mergeSort] at hx
    exact h x hx
  rw [consolidateLevels]
  split
  · intro y hy; simp at hy
  · next l ls heq =>
    intro y hy
    refine consolidateLoop_forall hmid ls l [] ?_ (by simp) ?_ y hy
    · exact hs l (by rw [heq]; exact List.mem_cons_self _ _)
    · intro z hz; exact hs z (by rw [heq]; exact List.mem_cons_of_mem _ hz)

/-- Every final support level is strictly below the current price. -/
theorem srFinalSupports_lt (data : List StockData) :
    ∀ x ∈ srFinalSupports data, x < (getD data (data.length - 1)).Close := by
  intro x hx
  rw [srFinalSupports] at hx
  have hx' : x ∈ (sortAsc (consolidateLevels (srSupportCandidates data))).reverse := by
    revert hx; split_ifs with h3
    · exact fun hx => (List.take_sublist _ _).subset hx
    · exact id
  rw [List.mem_reverse, sortAsc, List.mem_mergeSort] at hx'
  refine consolidateLevels_forall
    (P := (· < (getD data (data.length - 1)).Close))
    (fun a b ha hb => by dsimp only at *; linarith) _ ?_ x hx'
  intro z hz
  obtain ⟨pv, hpv, rfl⟩ := List.mem_map.mp hz
  exact (of_decide_eq_true (List.mem_filter.mp hpv).2).2

/-- Every final resistance level is strictly above the current price. -/
theorem srFinalResistances_gt (data : List StockData) :
    ∀ y ∈ srFinalResistances data, (getD data (data.length - 1)).Close < y := by
  intro y hy
  rw [srFinalResistances] at hy
  have hy' : y ∈ sortAsc (consolidateLevels (srResistanceCandidates data)) := by
    revert hy; split_ifs with h3
    · exact fun hy => (List.take_sublist _ _).subset hy
    · exact id
  rw [sortAsc, List.mem_mergeSort] at hy'
  refine consolidateLevels_forall
    (P := ((getD data (data.length - 1)).Close < ·))
    (fun a b ha hb => by dsimp only at *; linarith) _ ?_ y hy'
  intro z hz
  obtain ⟨pv, hpv, rfl⟩ := List.mem_map.mp hz
  exact (of_decide_eq_true (List.mem_filter.mp hpv).2).2

/-- The final support list is sorted descending. -/
theorem srFinalSupports_sorted (data : List StockData) :
    List.Sorted (· ≥ ·) (srFinalSupports data) := by
  rw [srFinalSupports]
  have hs : List.Sorted (· ≥ ·)
      ((sortAsc (consolidateLevels (srSupportCandidates data))).reverse) := by
    rw [List.Sorted, List.pairwise_reverse]
    exact List.sorted_mergeSort' _
  split_ifs with h3
  · exact hs.sublist (List.take_sublist _ _)
  · exact hs

/-- The final resistance list is sorted ascending. -/
theorem srFinalResistances_sorted (data : List StockData) :
    List.Sorted (· ≤ ·) (srFinalResistances data) := by
  rw [srFinalResistances]
  have hr : List.Sorted (· ≤ ·)
      (sortAsc (consolidateLevels (srResistanceCandidates data))) :=
    List.sorted_mergeSort' _
  split_ifs with h3
  · exact hr.sublist (List.take_sublist _ _)
  · exact hr

/-- The final support list has at most 3 entries. -/
theorem srFinalSupports_len (data : List StockData) :
    (srFinalSupports data).length ≤ 3 := by
  rw [srFinalSupports]
  split_ifs with h3
  · simp [List.length_take]
  · omega

/-- The final resistance list has at most 3 entries. -/
theorem srFinalResistances_len (data : List StockData) :
    (srFinalResistances data).length ≤ 3 := by
  rw [srFinalResistances]
  split_ifs with h3
  · simp [List.length_take]
  · omega

/-- `generateWyckoffRecommendation` with phase `"unknown"` short-circuits. -/
theorem gwr_unknown (data : List StockData) (pc : ℚ) (ev : List WyckoffEvent)
    (tr : PriceRange) (er : String) :
    generateWyckoffRecommendation data "unknown" pc ev tr er = ("hold", 0) := by
  rw [generateWyckoffRecommendation, if_pos (Or.inr (Or.inr rfl))]

/-! ## Claim theorems -/

/-- C7: every core component degrades to its documented sentinel on an
under-length series: `AnalyzeTrend` returns `{sideways, 0, 0}` below 20 bars,
`AnalyzeWyckoff` returns the zeroed `insufficient_data` result below 30 bars,
and `DetectCandlestickPatterns` returns the empty list below 3 bars. -/
theorem short_series_sentinels (data : List StockData) :
    (data.length < 20 → AnalyzeTrend data = ⟨"sideways", 0, 0⟩) ∧
    (data.length < 30 → AnalyzeWyckoff data =
      ⟨"insufficient_data", 0, [], ⟨0, 0⟩, "unknown", "hold", 0,
        ⟨0, 0⟩, ⟨0, 0⟩, ⟨0, 0⟩, ⟨0, 0⟩⟩) ∧
    (data.length < 3 → DetectCandlestickPatterns data = []) := by
  refine ⟨fun h => ?_, fun h => ?_, fun h => ?_⟩
  · rw [AnalyzeTrend, if_pos h]
  · rw [AnalyzeWyckoff, if_pos h]
  · rw [DetectCandlestickPatterns, if_pos h]

/-- C7 witness: the sentinels at a concrete 2-bar series. -/
theorem short_series_sentinels_witness :
    AnalyzeTrend twoBarSeries = ⟨"sideways", 0, 0⟩ ∧
    AnalyzeWyckoff twoBarSeries =
      ⟨"insufficient_data", 0, [], ⟨0, 0⟩, "unknown", "hold", 0,
        ⟨0, 0⟩, ⟨0, 0⟩, ⟨0, 0⟩, ⟨0, 0⟩⟩ ∧
    DetectCandlestickPatterns twoBarSeries = [] :=
  ⟨(short_series_sentinels twoBarSeries).1 (by simp [twoBarSeries]),
   (short_series_sentinels twoBarSeries).2.1 (by simp [twoBarSeries]),
   (short_series_sentinels twoBarSeries).2.2 (by simp [twoBarSeries])⟩

/-- C8: `Analyze` produces no report exactly on the empty series (the Go
code returns a nil report — and a nil error — for empty input, and a report
with no error for every non-empty input). -/
theorem analyze_none_iff_empty (qsqrt : ℚ → ℚ) (symbol : String) (now : ℤ)
    (data : List StockData) :
    Analyze qsqrt symbol now data = none ↔ data = [] := by
  cases data with
  | nil => simp [Analyze]
  | cons a l => simp [Analyze]

/-- C9: two runs of `Analyze` on the same series differ at most in the
stamped `Date`: every other report field is identical. -/
theorem analyze_deterministic_modulo_date (qsqrt : ℚ → ℚ) (symbol : String)
    (data : List StockData) (t1 t2 : ℤ) :
    (Analyze qsqrt symbol t1 data).map reportCore =
      (Analyze qsqrt symbol t2 data).map reportCore := by
  cases data <;> rfl

/-- C10: when the determined phase is `"unknown"` on a series of ≥ 30 bars,
the Wyckoff-only recommendation is exactly `("hold", 0)` — none of the
score terms is applied. -/
theorem wyckoff_unknown_hold (data : List StockData) (h30 : 30 ≤ data.length)
    (hu : (AnalyzeWyckoff data).Phase = "unknown") :
    (AnalyzeWyckoff data).Recommendation = "hold" ∧
      (AnalyzeWyckoff data).RecommendationScore = 0 := by
  have hn : ¬ data.length < 30 := by omega
  simp only [AnalyzeWyckoff, if_neg hn] at hu ⊢
  rw [hu]
  rw [gwr_unknown]
  exact ⟨rfl, rfl⟩

/-- C10 witness: the spike series has ≥ 30 bars, phase `"unknown"`, and
recommendation `("hold", 0)`. -/
theorem wyckoff_unknown_hold_witness :
    (AnalyzeWyckoff spikeSeries).Recommendation = "hold" ∧
      (AnalyzeWyckoff spikeSeries).RecommendationScore = 0 :=
  wyckoff_unknown_hold spikeSeries (by decide)
    (by with_unfolding_all exact of_decide_eq_true (Eq.refl true))

/-- C5: `RSI(series, 14)` lies in `[0, 100]`; it is `50` below 15 bars,
`100` when the trailing average loss is zero, and otherwise equals
`100 - 100/(1 + avgGain/avgLoss)`. -/
theorem rsi_range_and_cases (data : List StockData) :
    (0 ≤ CalculateRSI data 14 ∧ CalculateRSI data 14 ≤ 100) ∧
    (data.length < 15 → CalculateRSI data 14 = 50) ∧
    (15 ≤ data.length → rsiAvgLoss data 14 = 0 → CalculateRSI data 14 = 100) ∧
    (15 ≤ data.length → rsiAvgLoss data 14 ≠ 0 →
      CalculateRSI data 14 =
        100 - 100 / (1 + rsiAvgGain data 14 / rsiAvgLoss data 14)) := by
  have hg : 0 ≤ rsiGains data 14 := foldl_gains_nonneg _ 0 le_rfl
  have hl : 0 ≤ rsiLosses data 14 := foldl_losses_nonneg _ 0 le_rfl
  have hag : 0 ≤ rsiAvgGain data 14 := by
    rw [rsiAvgGain]; exact div_nonneg hg (by norm_num)
  have hal : 0 ≤ rsiAvgLoss data 14 := by
    rw [rsiAvgLoss]; exact div_nonneg hl (by norm_num)
  simp only [CalculateRSI]
  by_cases hlen : data.length < 14 + 1
  · rw [if_pos hlen]
    exact ⟨⟨by norm_num, by norm_num⟩, fun _ => rfl,
      fun h _ => absurd h (by omega), fun h _ => absurd h (by omega)⟩
  · rw [if_neg hlen]
    by_cases hz : rsiAvgLoss data 14 = 0
    · rw [if_pos hz]
      exact ⟨⟨by norm_num, by norm_num⟩, fun h => absurd h (by omega),
        fun _ _ => rfl, fun _ h => absurd hz h⟩
    · rw [if_neg hz]
      have hal' : 0 < rsiAvgLoss data 14 := lt_of_le_of_ne hal (Ne.symm hz)
      have hrs : 0 ≤ rsiAvgGain data 14 / rsiAvgLoss data 14 := div_nonneg hag hal
      have hled : 100 / (1 + rsiAvgGain data 14 / rsiAvgLoss data 14) ≤ 100 :=
        div_le_self (by norm_num) (by linarith)
      have hposd : 0 < 100 / (1 + rsiAvgGain data 14 / rsiAvgLoss data 14) :=
        div_pos (by norm_num) (by linarith)
      exact ⟨⟨by linarith, by linarith⟩, fun h => absurd h (by omega),
        fun _ h => absurd h hz, fun _ _ => rfl⟩

/-- C5 witness: bounds and the exact formula on an alternating 16-bar
series, `100` on a flat 15-bar series, `50` on a 2-bar series. -/
theorem rsi_range_and_cases_witness :
    (0 ≤ CalculateRSI alternatingSeries 14 ∧ CalculateRSI alternatingSeries 14 ≤ 100) ∧
    CalculateRSI flatFifteenSeries 14 = 100 ∧
    CalculateRSI twoBarSeries 14 = 50 ∧
    CalculateRSI alternatingSeries 14 =
      100 - 100 / (1 + rsiAvgGain alternatingSeries 14 / rsiAvgLoss alternatingSeries 14) :=
  ⟨(rsi_range_and_cases alternatingSeries).1,
   (rsi_range_and_cases flatFifteenSeries).2.2.1 (by decide)
     (by with_unfolding_all exact of_decide_eq_true (Eq.refl true)),
   (rsi_range_and_cases twoBarSeries).2.1 (by simp [twoBarSeries]),
   (rsi_range_and_cases alternatingSeries).2.2.2 (by decide)
     (by with_unfolding_all exact of_decide_eq_true (Eq.refl true))⟩

/-- C6: both recommendation generators clamp their normalized score to
`[-1, 1]`, and label `"buy"` iff the score exceeds `0.3` (combined) resp.
`0.4` (Wyckoff-only), `"sell"` iff it is below the negated threshold, and
`"hold"` otherwise. -/
theorem recommendation_clamped_thresholds
    (cp : ℚ) (ind : TechnicalIndicators) (pats : TimeframePatterns)
    (sr : SupportResistance) (tr : TrendAnalysis) (wy : WyckoffAnalysis)
    (data : List StockData) (ph : String) (pc : ℚ) (ev : List WyckoffEvent)
    (trr : PriceRange) (er : String) :
    ((-1 : ℚ) ≤ (generateRecommendation cp ind pats sr tr wy).2 ∧
      (generateRecommendation cp ind pats sr tr wy).2 ≤ 1 ∧
      ((generateRecommendation cp ind pats sr tr wy).1 = "buy" ↔
        (generateRecommendation cp ind pats sr tr wy).2 > 0.3) ∧
      ((generateRecommendation cp ind pats sr tr wy).1 = "sell" ↔
        (generateRecommendation cp ind pats sr tr wy).2 < -(0.3 : ℚ)) ∧
      ((generateRecommendation cp ind pats sr tr wy).1 = "hold" ↔
        ¬ ((generateRecommendation cp ind pats sr tr wy).2 > 0.3) ∧
        ¬ ((generateRecommendation cp ind pats sr tr wy).2 < -(0.3 : ℚ)))) ∧
    ((-1 : ℚ) ≤ (generateWyckoffRecommendation data ph pc ev trr er).2 ∧
      (generateWyckoffRecommendation data ph pc ev trr er).2 ≤ 1 ∧
      ((generateWyckoffRecommendation data ph pc ev trr er).1 = "buy" ↔
        (generateWyckoffRecommendation data ph pc ev trr er).2 > 0.4) ∧
      ((generateWyckoffRecommendation data ph pc ev trr er).1 = "sell" ↔
        (generateWyckoffRecommendation data ph pc ev trr er).2 < -(0.4 : ℚ)) ∧
      ((generateWyckoffRecommendation data ph pc ev trr er).1 = "hold" ↔
        ¬ ((generateWyckoffRecommendation data ph pc ev trr er).2 > 0.4) ∧
        ¬ ((generateWyckoffRecommendation data ph pc ev trr er).2 < -(0.4 : ℚ)))) := by
  constructor
  · simp only [generateRecommendation]
    exact clamp_bounds_and_labels (recommendationScoreRaw cp ind pats sr tr wy / 10) 0.3 (by norm_num)
  · by_cases hg : data.length = 0 ∨ ph = "insufficient_data" ∨ ph = "unknown"
    · rw [generateWyckoffRecommendation, if_pos hg]
      refine ⟨by norm_num, by norm_num, ?_, ?_, ?_⟩
      · exact iff_of_false (by decide) (by norm_num)
      · exact iff_of_false (by decide) (by norm_num)
      · exact iff_of_true rfl ⟨by norm_num, by norm_num⟩
    · simp only [generateWyckoffRecommendation, if_neg hg]
      exact clamp_bounds_and_labels
        (wyckoffScoreRaw data ph pc ev trr er / 9.0) 0.4 (by norm_num)

/-- Branch facts of `determinePhase`: the confidence is nonnegative; in the
markup/markdown branches it equals `0.7 + 0.05` per counted event of the
matching type (with no cap); every other branch stays at or below `0.95`. -/
theorem determinePhase_spec (data : List StockData) (events : List WyckoffEvent)
    (tr : PriceRange) :
    0 ≤ (determinePhase data events tr).2 ∧
    ((determinePhase data events tr).1 = "markup" →
      (determinePhase data events tr).2 = 0.7 + (countAccumulation events : ℚ) * 0.05) ∧
    ((determinePhase data events tr).1 = "markdown" →
      (determinePhase data events tr).2 = 0.7 + (countDistribution events : ℚ) * 0.05) ∧
    ((determinePhase data events tr).1 ≠ "markup" →
      (determinePhase data events tr).1 ≠ "markdown" →
      (determinePhase data events tr).2 ≤ 0.95) := by
  simp only [determinePhase]
  split_ifs <;> dsimp only <;> refine ⟨?_, ?_, ?_, ?_⟩ <;>
    first
      | (intro hmu hmd
         first
           | exact absurd rfl hmu
           | exact absurd rfl hmd
           | exact min_le_right _ _
           | norm_num)
      | (intro h
         first
           | exact absurd h (by decide)
           | rfl)
      | exact le_min (by positivity) (by norm_num)
      | positivity

/-- C2 corrected/amended: the Wyckoff phase confidence is nonnegative, stays
at or below `0.95` in every branch except markup/markdown, and in those
branches stays at or below `1` provided at most 6 events of the matching
type were counted — it is `0.7 + 0.05` per counted event with no cap, so
with 7 or more matching events it exceeds 1 (see the counterexample). -/
theorem phase_confidence_amended (data : List StockData) :
    0 ≤ (AnalyzeWyckoff data).PhaseConfidence ∧
    ((AnalyzeWyckoff data).Phase = "markup" →
      countAccumulation (AnalyzeWyckoff data).Events ≤ 6 →
      (AnalyzeWyckoff data).PhaseConfidence ≤ 1) ∧
    ((AnalyzeWyckoff data).Phase = "markdown" →
      countDistribution (AnalyzeWyckoff data).Events ≤ 6 →
      (AnalyzeWyckoff data).PhaseConfidence ≤ 1) ∧
    ((AnalyzeWyckoff data).Phase ≠ "markup" → (AnalyzeWyckoff data).Phase ≠ "markdown" →
      (AnalyzeWyckoff data).PhaseConfidence ≤ 0.95) := by
  by_cases h : data.length < 30
  · simp only [AnalyzeWyckoff, if_pos h]
    exact ⟨le_refl 0, fun hh => absurd hh (by decide), fun hh => absurd hh (by decide),
      fun _ _ => by show (0 : ℚ) ≤ 0.95; norm_num⟩
  · simp only [AnalyzeWyckoff, if_neg h]
    obtain ⟨h0, hmu, hmd, hrest⟩ :=
      determinePhase_spec data (detectWyckoffEvents data (detectTradingRange data))
        (detectTradingRange data)
    refine ⟨h0, ?_, ?_, hrest⟩
    · intro hph hcnt
      rw [hmu hph]
      have hc : (countAccumulation
          (detectWyckoffEvents data (detectTradingRange data)) : ℚ) ≤ 6 := by
        exact_mod_cast hcnt
      linarith
    · intro hph hcnt
      rw [hmd hph]
      have hc : (countDistribution
          (detectWyckoffEvents data (detectTradingRange data)) : ℚ) ≤ 6 := by
        exact_mod_cast hcnt
      linarith

/-- C2 amended witness: the rising series is in the markup phase with zero
events, and its confidence (0.7) indeed lies in `[0, 1]`. -/
theorem phase_confidence_amended_witness :
    0 ≤ (AnalyzeWyckoff risingSeries).PhaseConfidence ∧
      (AnalyzeWyckoff risingSeries).PhaseConfidence ≤ 1 :=
  ⟨(phase_confidence_amended risingSeries).1,
   (phase_confidence_amended risingSeries).2.1
     (by with_unfolding_all exact of_decide_eq_true (Eq.refl true))
     (by with_unfolding_all exact of_decide_eq_true (Eq.refl true))⟩

/-- C2 counterexample: the 60-bar series with eight Sign-of-Strength events
lands in the markup branch with confidence `0.7 + 8·0.05 = 1.1 > 1`: the
phase confidence is not bounded by 1. -/
theorem markup_confidence_exceeds_one_cex :
    (AnalyzeWyckoff eightSosSeries).Phase = "markup" ∧
    countAccumulation (AnalyzeWyckoff eightSosSeries).Events = 8 ∧
    1 < (AnalyzeWyckoff eightSosSeries).PhaseConfidence := by
  with_unfolding_all exact of_decide_eq_true (Eq.refl true)

/-- C4: on any series of ≥ 20 bars, each support/resistance list has at most
3 entries, every support is strictly below and every resistance strictly
above the current close (surviving the 2% consolidation by averaging), with
supports sorted descending and resistances ascending. -/
theorem support_resistance_shape (data : List StockData) (h20 : 20 ≤ data.length) :
    (DetectSupportResistance data).SupportLevels.length ≤ 3 ∧
    (DetectSupportResistance data).ResistanceLevels.length ≤ 3 ∧
    (∀ x ∈ (DetectSupportResistance data).SupportLevels,
      x < (getD data (data.length - 1)).Close) ∧
    (∀ y ∈ (DetectSupportResistance data).ResistanceLevels,
      (getD data (data.length - 1)).Close < y) ∧
    List.Sorted (· ≥ ·) (DetectSupportResistance data).SupportLevels ∧
    List.Sorted (· ≤ ·) (DetectSupportResistance data).ResistanceLevels := by
  have hn : ¬ data.length < 20 := by omega
  rw [DetectSupportResistance, if_neg hn]
  exact ⟨srFinalSupports_len data, srFinalResistances_len data,
    srFinalSupports_lt data, srFinalResistances_gt data,
    srFinalSupports_sorted data, srFinalResistances_sorted data⟩

/-- C4 witness: the peaks-and-dips series (which exercises consolidation and
full-length lists) satisfies every clause. -/
theorem support_resistance_shape_witness :
    (DetectSupportResistance peaksAndDipsSeries).SupportLevels.length ≤ 3 ∧
    (DetectSupportResistance peaksAndDipsSeries).ResistanceLevels.length ≤ 3 ∧
    (∀ x ∈ (DetectSupportResistance peaksAndDipsSeries).SupportLevels,
      x < (getD peaksAndDipsSeries (peaksAndDipsSeries.length - 1)).Close) ∧
    (∀ y ∈ (DetectSupportResistance peaksAndDipsSeries).ResistanceLevels,
      (getD peaksAndDipsSeries (peaksAndDipsSeries.length - 1)).Close < y) ∧
    List.Sorted (· ≥ ·) (DetectSupportResistance peaksAndDipsSeries).SupportLevels ∧
    List.Sorted (· ≤ ·) (DetectSupportResistance peaksAndDipsSeries).ResistanceLevels :=
  support_resistance_shape peaksAndDipsSeries (by decide)

/-- C3 counterexample: in the flat 11-bar series every bar's `High` merely
ties its neighbours', yet bar 5 is classified as a swing high (and, by the
dual tie on `Low`, as a swing low): equality within the window does not
disqualify a pivot. -/
theorem equal_high_pivot_cex :
    (getD flatElevenSeries 5).High = (getD flatElevenSeries 6).High ∧
    findPivotPoints flatElevenSeries =
      [⟨(getD flatElevenSeries 5).High, false⟩, ⟨(getD flatElevenSeries 5).Low, true⟩] := by
  with_unfolding_all exact of_decide_eq_true (Eq.refl true)

/-- C3 amended: a bar is recorded as a swing high whenever no bar within the
5-bar window on either side has a *strictly greater* High — ties are allowed
(and dually for swing lows on Low). -/
theorem pivot_nonstrict_amended (data : List StockData) (i : ℕ)
    (h5 : 5 ≤ i) (hlen : i + 5 < data.length) :
    ((∀ j ∈ List.range' (i - 5) 11, (getD data j).High ≤ (getD data i).High) →
      (⟨(getD data i).High, false⟩ : pivotPoint) ∈ findPivotPoints data) ∧
    ((∀ j ∈ List.range' (i - 5) 11, (getD data i).Low ≤ (getD data j).Low) →
      (⟨(getD data i).Low, true⟩ : pivotPoint) ∈ findPivotPoints data) := by
  have hmem : i ∈ List.range' 5 (data.length - 10) := by
    rw [List.mem_range']
    exact ⟨i - 5, by omega, by omega⟩
  constructor
  · intro hH
    rw [findPivotPoints]
    refine List.mem_flatMap.mpr ⟨i, hmem, ?_⟩
    have hhigh : isLocalHighAt data i = true := by
      rw [isLocalHighAt, List.all_eq_true]
      intro j hj
      exact decide_eq_true (Or.inr (not_lt.mpr (hH j hj)))
    rw [pivotEntriesAt, hhigh, if_pos rfl]
    exact List.mem_append_left _ (List.mem_singleton_self _)
  · intro hL
    rw [findPivotPoints]
    refine List.mem_flatMap.mpr ⟨i, hmem, ?_⟩
    have hlow : isLocalLowAt data i = true := by
      rw [isLocalLowAt, List.all_eq_true]
      intro j hj
      exact decide_eq_true (Or.inr (not_lt.mpr (hL j hj)))
    rw [pivotEntriesAt, hlow, if_pos rfl]
    exact List.mem_append_right _ (List.mem_singleton_self _)

/-- Ordering of the three price ranges from `calculatePriceRanges`, given a
nonnegative current price, supports strictly below it, resistances strictly
above it and sorted ascending.  The buy range needs the extra premise that a
sole support level does not exceed 98% of the current price — without it the
buy range inverts (see the C1 counterexample). -/
theorem calculatePriceRanges_ordered (cp : ℚ) (ind : TechnicalIndicators)
    (sr : SupportResistance) (trend : TrendAnalysis) (hp : 0 ≤ cp)
    (hsup : ∀ x ∈ sr.SupportLevels, x < cp)
    (hres : ∀ y ∈ sr.ResistanceLevels, cp < y)
    (hsorted : List.Sorted (· ≤ ·) sr.ResistanceLevels) :
    ((calculatePriceRanges cp ind sr trend).2.1.Min ≤
      (calculatePriceRanges cp ind sr trend).2.1.Max) ∧
    ((calculatePriceRanges cp ind sr trend).2.2.Min ≤
      (calculatePriceRanges cp ind sr trend).2.2.Max) ∧
    ((∀ s, sr.SupportLevels = [s] → s ≤ cp * 0.98) →
      (calculatePriceRanges cp ind sr trend).1.Min ≤
        (calculatePriceRanges cp ind sr trend).1.Max) := by
  have hbuyMax : buyMaxOf cp sr ≤ cp := by
    rw [buyMaxOf]
    split_ifs with h1
    · rcases hS : sr.SupportLevels with _ | ⟨s0, S'⟩
      · rw [hS] at h1; simp at h1
      · rw [List.getD_cons_zero]
        exact le_of_lt (hsup s0 (by rw [hS]; exact List.mem_cons_self _ _))
    · nlinarith
  have hsellBase : 0 ≤ (sellBaseOf cp sr).1 ∧
      (sellBaseOf cp sr).1 ≤ (sellBaseOf cp sr).2 ∧ 0 ≤ (sellBaseOf cp sr).2 := by
    rw [sellBaseOf]
    rcases hR : sr.ResistanceLevels with _ | ⟨r0, R'⟩
    · simp only [List.length_nil]
      rw [if_neg (by norm_num)]
      refine ⟨?_, ?_, ?_⟩
      · show (0 : ℚ) ≤ cp * 1.05; nlinarith
      · show cp * 1.05 ≤ cp * 1.15; nlinarith
      · show (0 : ℚ) ≤ cp * 1.15; nlinarith
    · have hr0 : cp < r0 := hres r0 (by rw [hR]; exact List.mem_cons_self _ _)
      rcases R' with _ | ⟨r1, R''⟩
      · simp only [List.length_cons, List.length_nil]
        rw [if_pos (by norm_num), if_neg (by norm_num)]
        refine ⟨?_, ?_, ?_⟩
        · show (0 : ℚ) ≤ r0; linarith
        · show r0 ≤ r0 * 1.05; nlinarith
        · show (0 : ℚ) ≤ r0 * 1.05; nlinarith
      · have hr1 : cp < r1 := hres r1 (by
          rw [hR]; exact List.mem_cons_of_mem _ (List.mem_cons_self _ _))
        have h01 : r0 ≤ r1 := by
          rw [hR] at hsorted
          exact (List.pairwise_cons.mp hsorted).1 r1 (List.mem_cons_self _ _)
        simp only [List.length_cons]
        rw [if_pos (by norm_num), if_pos (by omega)]
        refine ⟨?_, ?_, ?_⟩
        · show (0 : ℚ) ≤ r0; linarith
        · show r0 ≤ r1; exact h01
        · show (0 : ℚ) ≤ r1; linarith
  have hsell : (sellAdjust trend (sellBaseOf cp sr)).1 ≤
      (sellAdjust trend (sellBaseOf cp sr)).2 := by
    obtain ⟨ha, hab, hb⟩ := hsellBase
    rw [sellAdjust]
    split_ifs <;> (try dsimp only) <;> nlinarith
  refine ⟨hbuyMax, hsell, ?_⟩
  intro hone
  show buyMinOf cp ind sr ≤ buyMaxOf cp sr
  rw [buyMinOf, buyMaxOf]
  rcases hS : sr.SupportLevels with _ | ⟨s0, S'⟩
  · simp only [List.length_nil]
    rw [if_neg (by norm_num), if_neg (by norm_num)]
    calc min ind.BollingerLower (cp * 0.95) ≤ cp * 0.95 := min_le_right _ _
      _ ≤ cp * 0.98 := by nlinarith
  · rcases S' with _ | ⟨s1, S''⟩
    · simp only [List.length_cons, List.length_nil]
      rw [if_pos (by norm_num), if_neg (by norm_num)]
      rw [List.getD_cons_zero]
      exact hone s0 hS
    · simp only [List.length_cons]
      rw [if_pos (by norm_num), if_pos (by omega)]

/-- C1 corrected/amended: in every report built on a nonnegative current
price, the half-buy and sell ranges satisfy `min ≤ max`, and the buy range
does too *except* when exactly one support level exists and it lies above
98% of the current price (in which case buy.min = support > buy.max). -/
theorem priceRanges_ordered_amended (qsqrt : ℚ → ℚ) (symbol : String) (now : ℤ)
    (data : List StockData) (h : data ≠ [])
    (hp : 0 ≤ (getD data (data.length - 1)).Close) :
    (((Analyze qsqrt symbol now data).getD default).HalfBuyRange.Min ≤
      ((Analyze qsqrt symbol now data).getD default).HalfBuyRange.Max) ∧
    (((Analyze qsqrt symbol now data).getD default).SellRange.Min ≤
      ((Analyze qsqrt symbol now data).getD default).SellRange.Max) ∧
    ((∀ s, ((Analyze qsqrt symbol now data).getD default).SupportResistance.SupportLevels
          = [s] →
        s ≤ ((Analyze qsqrt symbol now data).getD default).CurrentPrice * 0.98) →
      ((Analyze qsqrt symbol now data).getD default).BuyRange.Min ≤
        ((Analyze qsqrt symbol now data).getD default).BuyRange.Max) := by
  have hlen : ¬ data.length = 0 := fun h0 => h (List.length_eq_zero.mp h0)
  simp only [Analyze, if_neg hlen, Option.getD_some]
  have hsup : ∀ x ∈ (DetectSupportResistance data).SupportLevels,
      x < (getD data (data.length - 1)).Close := by
    rw [DetectSupportResistance]
    split_ifs
    · intro x hx; simp at hx
    · exact srFinalSupports_lt data
  have hres : ∀ y ∈ (DetectSupportResistance data).ResistanceLevels,
      (getD data (data.length - 1)).Close < y := by
    rw [DetectSupportResistance]
    split_ifs
    · intro y hy; simp at hy
    · exact srFinalResistances_gt data
  have hsorted : List.Sorted (· ≤ ·) (DetectSupportResistance data).ResistanceLevels := by
    rw [DetectSupportResistance]
    split_ifs
    · exact List.sorted_nil
    · exact srFinalResistances_sorted data
  exact calculatePriceRanges_ordered _ _ _ _ hp hsup hres hsorted

/-- C1 amended witness: the single-bar series (current price 100, no
support levels). -/
theorem priceRanges_ordered_amended_witness :
    (((Analyze qsqrt0 "O" 0 oneBarSeries).getD default).HalfBuyRange.Min ≤
      ((Analyze qsqrt0 "O" 0 oneBarSeries).getD default).HalfBuyRange.Max) ∧
    (((Analyze qsqrt0 "O" 0 oneBarSeries).getD default).SellRange.Min ≤
      ((Analyze qsqrt0 "O" 0 oneBarSeries).getD default).SellRange.Max) ∧
    ((∀ s, ((Analyze qsqrt0 "O" 0 oneBarSeries).getD default).SupportResistance.SupportLevels
          = [s] →
        s ≤ ((Analyze qsqrt0 "O" 0 oneBarSeries).getD default).CurrentPrice * 0.98) →
      ((Analyze qsqrt0 "O" 0 oneBarSeries).getD default).BuyRange.Min ≤
        ((Analyze qsqrt0 "O" 0 oneBarSeries).getD default).BuyRange.Max) :=
  priceRanges_ordered_amended qsqrt0 "O" 0 oneBarSeries (by simp [oneBarSeries])
    (by with_unfolding_all exact of_decide_eq_true (Eq.refl true))

/-- C1 counterexample: on the 21-bar series with a lone support at 99 and
current price 100, the report's buy range is `{min 99, max 98}` — the engine
does not establish `min ≤ max` for the buy range. -/
theorem buyRange_inverted_single_support_cex :
    ((Analyze qsqrt0 "C" 0 oneSupportSeries).getD default).SupportResistance.SupportLevels
        = [99] ∧
    ((Analyze qsqrt0 "C" 0 oneSupportSeries).getD default).BuyRange = ⟨99, 98⟩ ∧
    ¬ (((Analyze qsqrt0 "C" 0 oneSupportSeries).getD default).BuyRange.Min ≤
        ((Analyze qsqrt0 "C" 0 oneSupportSeries).getD default).BuyRange.Max) := by
  with_unfolding_all exact of_decide_eq_true (Eq.refl true)

/-- C3 amended witness: bar 5 of the flat series ties every window bar on
both High and Low, and both pivot entries are recorded. -/
theorem pivot_nonstrict_amended_witness :
    ((⟨(getD flatElevenSeries 5).High, false⟩ : pivotPoint) ∈
      findPivotPoints flatElevenSeries) ∧
    ((⟨(getD flatElevenSeries 5).Low, true⟩ : pivotPoint) ∈
      findPivotPoints flatElevenSeries) :=
  ⟨(pivot_nonstrict_amended flatElevenSeries 5 (by decide) (by decide)).1
     (by with_unfolding_all exact of_decide_eq_true (Eq.refl true)),
   (pivot_nonstrict_amended flatElevenSeries 5 (by decide) (by decide)).2
     (by with_unfolding_all exact of_decide_eq_true (Eq.refl true))⟩

end StockingChain
